import Mathlib

/-!
Shallow embedding of the AI-DevOps-Workbench orchestration engine:
`meta_orchestrator.py`, `intelligence_engine.py` and `methodology_validator.py`.
Python dictionaries are modelled as insertion-ordered association lists,
floats as rationals, and the external agent consultation as a function
parameter returning either a response or a raised-exception message.
-/

/-- Substring test on character lists: `needle` occurs contiguously in the
second argument.  Models the Python `in` operator on strings. -/
def charsContainSub (needle : List Char) : List Char → Bool
  | [] => needle.isEmpty
  | c :: rest => needle.isPrefixOf (c :: rest) || charsContainSub needle rest

/-- `strHas hay needle` models Python `needle in hay` for strings. -/
def strHas (hay needle : String) : Bool :=
  charsContainSub needle.toList hay.toList

/-- Models Python `any(k in hay for k in needles)`. -/
def hasAny (hay : String) (needles : List String) : Bool :=
  needles.any (fun n => strHas hay n)

/-- Models Python `sum(1 for k in needles if k in hay)`. -/
def countMatches (hay : String) (needles : List String) : Nat :=
  (needles.filter (fun n => strHas hay n)).length

/-- Fueled splitter over character lists (the fuel is the input length, so it
never runs out); structural recursion keeps it kernel-computable. -/
def charsSplitOnAux (s0 : Char) (sep : List Char) : Nat → List Char → List Char → List (List Char)
  | _, [], acc => [acc.reverse]
  | 0, l, acc => [acc.reverse ++ l]
  | fuel + 1, c :: rest, acc =>
    if (s0 :: sep).isPrefixOf (c :: rest) then
      acc.reverse :: charsSplitOnAux s0 sep fuel (rest.drop sep.length) []
    else charsSplitOnAux s0 sep fuel rest (c :: acc)

/-- Models Python `s.split(sep)` for a non-empty separator. -/
def pySplitOn (s sep : String) : List String :=
  match sep.data with
  | [] => [s]
  | s0 :: sep2 => (charsSplitOnAux s0 sep2 s.data.length s.data []).map (fun cs => ⟨cs⟩)

/-- Models Python `sep.join(l)`. -/
def pyJoin (sep : String) : List String → String
  | [] => ""
  | [x] => x
  | x :: rest => x ++ sep ++ pyJoin sep rest

/-- Models Python `s.lower()` (kernel-computable, character-wise). -/
def String.lower (s : String) : String := ⟨s.data.map Char.toLower⟩

/-- Models Python `s.upper()` (kernel-computable, character-wise). -/
def String.upper (s : String) : String := ⟨s.data.map Char.toUpper⟩

/-- Models Python `s.split()` (whitespace split, empty parts dropped). -/
def pySplit (s : String) : List String :=
  (pySplitOn s " ").filter (fun w => w ≠ "")

/-- A Python dict with string keys, as an insertion-ordered association list. -/
abbrev PyDict (α : Type) := List (String × α)

/-- Models `d[k]` / `d.get(k)`: the value stored at key `k`, if any. -/
def dictGet {α : Type} (d : PyDict α) (k : String) : Option α :=
  (d.find? (fun p => p.1 == k)).map (·.2)

/-- Models `d.get(k, v)`. -/
def dictGetD {α : Type} (d : PyDict α) (k : String) (v : α) : α :=
  (dictGet d k).getD v

/-- Models `d[k] = v`: replace in place if the key exists, else append. -/
def dictInsert {α : Type} : PyDict α → String → α → PyDict α
  | [], k, v => [(k, v)]
  | (k', v') :: rest, k, v =>
    if k' == k then (k, v) :: rest else (k', v') :: dictInsert rest k v

/-- Models `d.update(e)`. -/
def dictUpdate {α : Type} (d e : PyDict α) : PyDict α :=
  e.foldl (fun acc p => dictInsert acc p.1 p.2) d

/-- Models `k in d` for a dict. -/
def dictHasKey {α : Type} (d : PyDict α) (k : String) : Bool :=
  (dictGet d k).isSome

/-- Models Python `repr` of a string (single quotes). -/
def pyRepr (s : String) : String := "\x27" ++ s ++ "\x27"

/-- Models Python `str(d)` for a dict of strings. -/
def strOfPyDict (d : PyDict String) : String :=
  "\x7b" ++ pyJoin ", " (d.map (fun p => pyRepr p.1 ++ ": " ++ pyRepr p.2)) ++ "\x7d"

/-- Models Python `str(l)` for a list of strings. -/
def strOfStringList (l : List String) : String :=
  "[" ++ pyJoin ", " (l.map pyRepr) ++ "]"

/-- All unordered pairs of a list taken in Python double-loop order
(`for i, x in enumerate(l): for y in l[i+1:]`). -/
def allPairs {α : Type} : List α → List (α × α)
  | [] => []
  | x :: rest => rest.map (fun y => (x, y)) ++ allPairs rest

/-- One entry of `technical_decisions` (`{'decision': ..., 'recommendation': ...}`). -/
structure TechnicalDecision where
  decision : String
  recommendation : String
deriving DecidableEq

/-- Models Python `str(decision)` for a technical-decision dict. -/
def strOfDecision (d : TechnicalDecision) : String :=
  "\x7b" ++ pyRepr "decision" ++ ": " ++ pyRepr d.decision ++ ", " ++
    pyRepr "recommendation" ++ ": " ++ pyRepr d.recommendation ++ "\x7d"

/-- The `metadata` dict of an agent response; only the keys the engine reads. -/
structure Metadata where
  agent_name : Option String
  methodology_applied : Option String
  confidence : Option ℚ
deriving DecidableEq

/-- `AgentResponse` from meta_orchestrator.py (same shape as the raw response
dicts consumed by intelligence_engine.py). -/
structure AgentResponse where
  status : String
  result : PyDict String
  metadata : Metadata
  recommendations : PyDict String
  scope_boundaries : PyDict String
  potential_conflicts : PyDict String
  errors : String
  code_quality_metrics : PyDict String
  technical_decisions : List TechnicalDecision
  implementation_risks : List String
deriving DecidableEq

/-- The dataclass defaults of `AgentResponse`. -/
def AgentResponse.empty : AgentResponse :=
  { status := "failed", result := [], metadata := ⟨none, none, none⟩,
    recommendations := [], scope_boundaries := [], potential_conflicts := [],
    errors := "", code_quality_metrics := [], technical_decisions := [],
    implementation_risks := [] }

/-- `AgentResponse(status='failed', errors=e)`. -/
def AgentResponse.mkFailed (e : String) : AgentResponse :=
  { AgentResponse.empty with status := "failed", errors := e }

/-- Values stored in a request's context dict. -/
inductive CtxVal where
  | str (s : String)
  | resultMap (m : PyDict String)
  | recs (m : PyDict String)
  | decisions (l : List TechnicalDecision)
deriving DecidableEq

/-- A request context dict. -/
abbrev Ctx := PyDict CtxVal

/-- `DevelopmentRequest` from meta_orchestrator.py. -/
structure DevelopmentRequest where
  objective : String
  context : Ctx
  constraints : PyDict String
  output_format : String
  success_criteria : String
  project_type : String
  technical_requirements : PyDict String
  quality_gates : List String
deriving DecidableEq

/-- The four orchestration patterns. -/
inductive OrchestrationPattern where
  | sequential
  | mapreduce
  | consensus
  | hierarchical
deriving DecidableEq

/-- One external consultation: either a structured response or a raised
exception message.  `_consult_agent` is the boundary to the out-of-scope
expert call, so the executors are parameterised over it. -/
abbrev Consult := String → DevelopmentRequest → Except String AgentResponse

/-- Converting a consultation outcome to a response: exceptions become
`AgentResponse(status='failed', errors=str(e))`, exactly as in the
`try/except` of `_execute_sequential_workflow` and the
`isinstance(result, Exception)` branch of `_execute_parallel_analysis`. -/
def response_of : Except String AgentResponse → AgentResponse
  | .ok r => r
  | .error e => AgentResponse.mkFailed e

/-- The boolean complexity indicators of `_assess_task_complexity`. -/
structure TaskComplexity where
  multiple_systems : Bool
  security_critical : Bool
  ui_component : Bool
  architecture_change : Bool
  performance_critical : Bool
  conflicts_likely : Bool
  parallel_work_possible : Bool
deriving DecidableEq

/-- `complexity_score`: number of true indicators. -/
def TaskComplexity.score (tc : TaskComplexity) : Nat :=
  (if tc.multiple_systems then 1 else 0) + (if tc.security_critical then 1 else 0) +
  (if tc.ui_component then 1 else 0) + (if tc.architecture_change then 1 else 0) +
  (if tc.performance_critical then 1 else 0) + (if tc.conflicts_likely then 1 else 0) +
  (if tc.parallel_work_possible then 1 else 0)

/-- `complexity_level` from the score. -/
def TaskComplexity.level (tc : TaskComplexity) : String :=
  if tc.score ≥ 4 then "high" else if tc.score ≥ 2 then "medium" else "low"

/-- `_assess_task_complexity`. -/
def assess_task_complexity (request : DevelopmentRequest) : TaskComplexity :=
  let obj := request.objective.lower
  { multiple_systems := hasAny obj ["integration", "microservice", "api", "database"],
    security_critical := hasAny obj ["security", "auth", "permission", "encryption"],
    ui_component := hasAny obj ["frontend", "ui", "interface", "component"],
    architecture_change := hasAny obj ["architecture", "design", "refactor", "restructure"],
    performance_critical := hasAny obj ["performance", "optimization", "scaling", "speed"],
    conflicts_likely := request.technical_requirements.length > 3 || request.constraints.length > 2,
    parallel_work_possible := strHas obj "analysis" || strHas obj "review" }

/-- `_determine_required_expertise`.  Each keyword family appends at most one
agent, so Python's final `list(set(...))` removes nothing; the set's
iteration order is modelled as the insertion order. -/
def determine_required_expertise (request : DevelopmentRequest) : List String :=
  let obj := request.objective.lower
  let required :=
    (if hasAny obj ["architecture", "design", "system", "integration"] then ["senior-architect"] else []) ++
    (if hasAny obj ["security", "auth", "permission", "encryption", "vulnerability"] then ["security-consultant"] else []) ++
    (if hasAny obj ["ui", "ux", "user", "interface", "frontend"] then ["ux-strategist"] else []) ++
    (if hasAny obj ["api", "backend", "server", "database", "microservice"] then ["backend-builder"] else []) ++
    (if hasAny obj ["frontend", "ui", "react", "vue", "angular", "component"] then ["frontend-builder"] else [])
  if required.isEmpty then ["senior-architect"] else required

/-- Pattern selection from `_analyze_development_task` (first rule wins). -/
def select_pattern (request : DevelopmentRequest) : OrchestrationPattern :=
  let task_complexity := assess_task_complexity request
  let required_expertise := determine_required_expertise request
  if required_expertise.length = 1 then .sequential
  else if task_complexity.conflicts_likely || strHas request.objective.lower "architecture_decision" then .consensus
  else if task_complexity.parallel_work_possible then .mapreduce
  else if required_expertise.contains "senior-architect" && required_expertise.length > 2 then .hierarchical
  else .sequential

/-- `_select_agents_for_task`: keep the required agents that are loaded;
if none are, fall back to `senior-architect` when it is loaded. -/
def select_agents_for_task (active_agents : List String) (required_agents : List String) : List String :=
  let available := required_agents.filter (fun a => active_agents.contains a)
  if available.isEmpty then
    if active_agents.contains "senior-architect" then ["senior-architect"] else []
  else available

/-- The accumulated-context update after a successful sequential step:
`accumulated_context.update({f"{agent}_recommendations": ..., f"{agent}_decisions": ..., f"{agent}_constraints": ...})`. -/
def update_accumulated (ctx : Ctx) (agent_name : String) (response : AgentResponse) : Ctx :=
  dictUpdate ctx
    [(agent_name ++ "_recommendations", CtxVal.recs response.recommendations),
     (agent_name ++ "_decisions", CtxVal.decisions response.technical_decisions),
     (agent_name ++ "_constraints", CtxVal.recs response.scope_boundaries)]

/-- The sequential loop of `_execute_sequential_workflow`, keeping for each
step both the context the agent was consulted with and its response. -/
def sequential_trace (consult : Consult) (request : DevelopmentRequest) :
    Ctx → List String → List (Ctx × AgentResponse)
  | _, [] => []
  | ctx, agent_name :: rest =>
    let response := response_of (consult agent_name { request with context := ctx })
    let ctx' := if response.status = "success" then update_accumulated ctx agent_name response else ctx
    (ctx, response) :: sequential_trace consult request ctx' rest

/-- `_execute_sequential_workflow`: the responses of the sequential trace. -/
def execute_sequential_workflow (consult : Consult) (request : DevelopmentRequest)
    (agents : List String) : List AgentResponse :=
  (sequential_trace consult request request.context agents).map (·.2)

/-- The contexts each sequential agent is consulted with, in order. -/
def seq_contexts (consult : Consult) (request : DevelopmentRequest)
    (agents : List String) : List Ctx :=
  (sequential_trace consult request request.context agents).map (·.1)

/-- `_execute_parallel_analysis`: all consultations against the identical
request, exceptions converted to failed responses, input order preserved by
`asyncio.gather`. -/
def execute_parallel_analysis (consult : Consult) (request : DevelopmentRequest)
    (agents : List String) : List AgentResponse :=
  agents.map (fun agent_name => response_of (consult agent_name request))

/-- One conflict record of the orchestrator's own `_detect_response_conflicts`. -/
structure SimpleConflict where
  agents : List String
  conflict_type : String
  description : String
deriving DecidableEq

/-- `_detect_response_conflicts` (meta_orchestrator.py): pairs where both
responses carry a non-empty `potential_conflicts` dict. -/
def detect_response_conflicts (responses : List AgentResponse) : List SimpleConflict :=
  (allPairs responses.enum).filterMap (fun p =>
    if !p.1.2.potential_conflicts.isEmpty && !p.2.2.potential_conflicts.isEmpty then
      some { agents := ["agent_" ++ toString p.1.1, "agent_" ++ toString p.2.1],
             conflict_type := "methodology_difference",
             description := "Conflicting technical recommendations detected" }
    else none)

/-- `_resolve_conflicts_through_consensus`: annotate every response with
`potential_conflicts['consensus_attempted'] = True` in a single round. -/
def resolve_conflicts_through_consensus (responses : List AgentResponse) : List AgentResponse :=
  responses.map (fun r =>
    { r with potential_conflicts := dictInsert r.potential_conflicts "consensus_attempted" "True" })

/-- `_execute_consensus_decision`. -/
def execute_consensus_decision (consult : Consult) (request : DevelopmentRequest)
    (agents : List String) : List AgentResponse :=
  let responses := execute_parallel_analysis consult request agents
  let conflicts := detect_response_conflicts responses
  if !conflicts.isEmpty then resolve_conflicts_through_consensus responses else responses

/-- The guided request built by `_execute_hierarchical_delegation` on
architect success: `{**request.context, 'architect_guidance': result,
'technical_direction': technical_decisions}`. -/
def guided_request (request : DevelopmentRequest) (architect_response : AgentResponse) :
    DevelopmentRequest :=
  { request with context :=
      (dictUpdate request.context
        [("architect_guidance", CtxVal.resultMap architect_response.result),
         ("technical_direction", CtxVal.decisions architect_response.technical_decisions)]) }

/-- `_execute_hierarchical_delegation`. -/
def execute_hierarchical_delegation (consult : Consult) (request : DevelopmentRequest)
    (agents : List String) : List AgentResponse :=
  if !agents.contains "senior-architect" then
    execute_sequential_workflow consult request agents
  else
    let architect_response := response_of (consult "senior-architect" request)
    if architect_response.status ≠ "success" then
      execute_parallel_analysis consult request agents
    else
      let specialist_agents := agents.filter (fun a => a ≠ "senior-architect")
      architect_response ::
        execute_parallel_analysis consult (guided_request request architect_response) specialist_agents

/-- One entry of `detailed_agent_responses`. -/
structure DetailedAgentResponse where
  agent : String
  methodology : String
  key_recommendations : PyDict String
  confidence : ℚ
deriving DecidableEq

/-- The `synthesis_summary` block. -/
structure SynthesisSummary where
  total_agents_consulted : Nat
  successful_consultations : Nat
  failed_consultations : Nat
  consensus_level : String
deriving DecidableEq

/-- The `technical_guidance` block. -/
structure TechnicalGuidance where
  primary_recommendations : List String
  technical_decisions : List TechnicalDecision
  implementation_approach : String
  quality_requirements : PyDict String
deriving DecidableEq

/-- The `risk_assessment` block. -/
structure RiskAssessment where
  implementation_risks : List String
  mitigation_strategies : List String
  confidence_level : ℚ
deriving DecidableEq

/-- The `next_steps` block. -/
structure NextSteps where
  immediate_actions : List String
  follow_up_consultations : List String
  quality_gates : List String
deriving DecidableEq

/-- The `quality_validation` block added by `_validate_development_quality`
(the wall-clock `validation_timestamp` is not modelled). -/
structure QualityValidation where
  quality_checks : List (String × Bool)
  quality_score : ℚ
  validation_passed : Bool
deriving DecidableEq

/-- The dict returned by `_synthesize_development_results` /
`process_development_request`; absent keys are `none`. -/
structure SynthesizedResponse where
  status : String
  error : Option String
  failed_agents : Option Nat
  synthesis_summary : Option SynthesisSummary
  technical_guidance : Option TechnicalGuidance
  risk_assessment : Option RiskAssessment
  next_steps : Option NextSteps
  detailed_agent_responses : List DetailedAgentResponse
  quality_validation : Option QualityValidation
  quality_warnings : Option (List String)
deriving DecidableEq

/-- `_extract_primary_recommendations`. -/
def extract_primary_recommendations (results : List AgentResponse) : List String :=
  results.filterMap (fun result =>
    let agent_name := result.metadata.agent_name.getD "unknown"
    if result.result.isEmpty then none
    else if agent_name = "senior-architect" then
      some (dictGetD result.result "architectural_recommendation" (agent_name ++ " provided technical guidance"))
    else if agent_name = "security-consultant" then
      some (dictGetD result.result "security_analysis" (agent_name ++ " provided security guidance"))
    else
      some (dictGetD result.result "consultation_output" (agent_name ++ " provided specialized guidance")))

/-- `_synthesize_implementation_approach`. -/
def synthesize_implementation_approach (results : List AgentResponse) : String :=
  let approaches := results.filterMap (fun result =>
    let agent_name := result.metadata.agent_name.getD "unknown"
    if agent_name = "senior-architect" then
      some "Architecture-driven development with clear component boundaries"
    else if agent_name = "security-consultant" then
      some "Security-first implementation with comprehensive threat mitigation"
    else if agent_name = "backend-builder" then
      some "API-first backend development with clean architecture principles"
    else if agent_name = "frontend-builder" then
      some "Component-driven frontend development with accessibility focus"
    else none)
  if !approaches.isEmpty then pyJoin " | " approaches
  else "Standard development approach with quality focus"

/-- `_generate_mitigation_strategies`.  Python iterates `set(risks)`; the
set's order is modelled as first-occurrence order. -/
def generate_mitigation_strategies (risks : List String) : List String :=
  risks.eraseDups.map (fun risk =>
    if strHas risk.lower "security" then
      "Implement comprehensive security testing and code review"
    else if strHas risk.lower "performance" then
      "Conduct performance testing and optimization analysis"
    else if strHas risk.lower "integration" then
      "Develop integration testing strategy and API contracts"
    else "Mitigate risk: " ++ risk)

/-- `_calculate_confidence_level`: mean of the metadata confidences
(`0.5` default), `0.5` when there are no results. -/
def calculate_confidence_level (results : List AgentResponse) : ℚ :=
  let confidences := results.map (fun r => r.metadata.confidence.getD (5/10))
  if !confidences.isEmpty then confidences.sum / confidences.length else (5/10)

/-- `_prioritize_immediate_actions` over the per-agent recommendations dict. -/
def prioritize_immediate_actions (recommendations : PyDict (PyDict String)) : List String :=
  let actions := recommendations.filterMap (fun p =>
    (dictGet p.2 "follow_up_actions").map (fun a => p.1 ++ ": " ++ a))
  if !actions.isEmpty then actions
  else ["Begin implementation based on technical guidance"]

/-- `_suggest_follow_up_consultations`. -/
def suggest_follow_up_consultations (results : List AgentResponse)
    (request : DevelopmentRequest) : List String :=
  let consulted_agents := results.map (fun r => r.metadata.agent_name)
  let obj := request.objective.lower
  (if strHas obj "security" && !consulted_agents.contains (some "security-consultant") then
    ["security-consultant - for security analysis"] else []) ++
  (if (strHas obj "ui" || strHas obj "frontend") && !consulted_agents.contains (some "ux-strategist") then
    ["ux-strategist - for user experience guidance"] else [])

/-- `_define_quality_gates`.  The final `list(set(gates))` is modelled as a
first-occurrence deduplication. -/
def define_quality_gates (results : List AgentResponse) (_request : DevelopmentRequest) :
    List String :=
  let gates := results.filterMap (fun result =>
    let agent_name := result.metadata.agent_name.getD "unknown"
    if agent_name = "security-consultant" then
      some "Security review and vulnerability assessment"
    else if agent_name = "senior-architect" then
      some "Architecture compliance and design review"
    else if agent_name = "backend-builder" || agent_name = "frontend-builder" then
      some "Code quality review and testing validation"
    else none)
  (gates ++ ["Unit test coverage >= 80%", "Integration testing complete", "Code review approved"]).eraseDups

/-- The per-agent recommendations aggregation of `_synthesize_development_results`
(`all_recommendations[agent_name] = result.recommendations` for non-empty dicts). -/
def collect_all_recommendations (successful_results : List AgentResponse) : PyDict (PyDict String) :=
  successful_results.foldl (fun acc result =>
    if !result.recommendations.isEmpty then
      dictInsert acc (result.metadata.agent_name.getD "unknown") result.recommendations
    else acc) []

/-- `_synthesize_development_results`. -/
def synthesize_development_results (results : List AgentResponse)
    (request : DevelopmentRequest) : SynthesizedResponse :=
  let successful_results := results.filter (fun r => r.status == "success")
  let failed_results := results.filter (fun r => r.status == "failed")
  if successful_results.isEmpty then
    { status := "failed",
      error := some "No agents provided successful consultations",
      failed_agents := some failed_results.length,
      synthesis_summary := none, technical_guidance := none, risk_assessment := none,
      next_steps := none, detailed_agent_responses := [], quality_validation := none,
      quality_warnings := none }
  else
    let all_technical_decisions := successful_results.flatMap (fun r => r.technical_decisions)
    let all_implementation_risks := successful_results.flatMap (fun r => r.implementation_risks)
    let all_recommendations := collect_all_recommendations successful_results
    let combined_quality_metrics := successful_results.foldl (fun acc r =>
      if !r.code_quality_metrics.isEmpty then dictUpdate acc r.code_quality_metrics else acc) []
    { status := "success",
      error := none,
      failed_agents := none,
      synthesis_summary := some
        { total_agents_consulted := results.length,
          successful_consultations := successful_results.length,
          failed_consultations := failed_results.length,
          consensus_level := if failed_results.length = 0 then "high" else "medium" },
      technical_guidance := some
        { primary_recommendations := extract_primary_recommendations successful_results,
          technical_decisions := all_technical_decisions,
          implementation_approach := synthesize_implementation_approach successful_results,
          quality_requirements := combined_quality_metrics },
      risk_assessment := some
        { implementation_risks := all_implementation_risks.eraseDups,
          mitigation_strategies := generate_mitigation_strategies all_implementation_risks,
          confidence_level := calculate_confidence_level successful_results },
      next_steps := some
        { immediate_actions := prioritize_immediate_actions all_recommendations,
          follow_up_consultations := suggest_follow_up_consultations successful_results request,
          quality_gates := define_quality_gates successful_results request },
      detailed_agent_responses := successful_results.map (fun r =>
        { agent := r.metadata.agent_name.getD "unknown",
          methodology := r.metadata.methodology_applied.getD "unknown",
          key_recommendations := r.result,
          confidence := r.metadata.confidence.getD 0 }),
      quality_validation := none,
      quality_warnings := none }

/-- Textual content of a `technical_guidance` block, for `str(response)`. -/
def strOfTechnicalGuidance (tg : TechnicalGuidance) : String :=
  strOfStringList tg.primary_recommendations ++ " " ++
  pyJoin " " (tg.technical_decisions.map strOfDecision) ++ " " ++
  tg.implementation_approach ++ " " ++ strOfPyDict tg.quality_requirements

/-- Textual content of a synthesized response.  Models the Python
`str(response)` used by `_check_success_criteria` for keyword matching. -/
def strOfSynthesizedResponse (response : SynthesizedResponse) : String :=
  response.status ++ " " ++ (response.error.getD "") ++ " " ++
  ((response.failed_agents.map toString).getD "") ++ " " ++
  ((response.synthesis_summary.map (fun s => s.consensus_level)).getD "") ++ " " ++
  ((response.technical_guidance.map strOfTechnicalGuidance).getD "") ++ " " ++
  ((response.risk_assessment.map (fun ra =>
      strOfStringList ra.implementation_risks ++ " " ++ strOfStringList ra.mitigation_strategies)).getD "") ++ " " ++
  ((response.next_steps.map (fun ns =>
      strOfStringList ns.immediate_actions ++ " " ++ strOfStringList ns.follow_up_consultations ++ " " ++
      strOfStringList ns.quality_gates)).getD "") ++ " " ++
  pyJoin " " (response.detailed_agent_responses.map (fun d =>
      d.agent ++ " " ++ d.methodology ++ " " ++ strOfPyDict d.key_recommendations))

/-- `_check_success_criteria`: empty criteria always pass, otherwise at least
50% of the whitespace-separated criteria keywords must occur in the
response text (`matches >= len * 0.5`, modelled as `2 * matches ≥ len`). -/
def check_success_criteria (response_text : String) (criteria : String) : Bool :=
  if criteria = "" then true
  else
    let criteria_keywords := pySplit criteria.lower
    let n_matches := (criteria_keywords.filter (fun k => strHas response_text k)).length
    2 * n_matches ≥ criteria_keywords.length

/-- `_validate_development_quality`: attach the quality-check block and, below
the 0.8 bar, the non-fatal warnings.  The `status` key is never touched. -/
def validate_development_quality (response : SynthesizedResponse)
    (request : DevelopmentRequest) : SynthesizedResponse :=
  let quality_checks : List (String × Bool) :=
    [("has_technical_guidance", response.technical_guidance.isSome),
     ("has_implementation_approach",
       (response.technical_guidance.map (fun tg => tg.implementation_approach != "")).getD false),
     ("has_risk_assessment", response.risk_assessment.isSome),
     ("has_next_steps", response.next_steps.isSome),
     ("meets_success_criteria",
       check_success_criteria (strOfSynthesizedResponse response).lower request.success_criteria)]
  let quality_score : ℚ := ((quality_checks.filter (fun c => c.2)).length : ℚ) / quality_checks.length
  let qv : QualityValidation :=
    { quality_checks := quality_checks,
      quality_score := quality_score,
      validation_passed := quality_score ≥ (8/10) }
  let response' := { response with quality_validation := some qv }
  if quality_score < (8/10) then
    let warnings := (quality_checks.filter (fun c => !c.2)).map (fun c => "Quality check failed: " ++ c.1)
    { response' with quality_warnings := some warnings }
  else response'

/-- Step 1+2 of `process_development_request`: the agents actually selected. -/
def selected_agents (active_agents : List String) (request : DevelopmentRequest) : List String :=
  select_agents_for_task active_agents (determine_required_expertise request)

/-- Step 3 of `process_development_request`: the `ContributorOutput` list
produced by the selected orchestration pattern. -/
def produced_outputs (consult : Consult) (active_agents : List String)
    (request : DevelopmentRequest) : List AgentResponse :=
  let agents := selected_agents active_agents request
  match select_pattern request with
  | .sequential => execute_sequential_workflow consult request agents
  | .mapreduce => execute_parallel_analysis consult request agents
  | .consensus => execute_consensus_decision consult request agents
  | .hierarchical => execute_hierarchical_delegation consult request agents

/-- `process_development_request`: analyse, select, execute, synthesize,
validate.  `_update_development_context` only appends to orchestrator-owned
history and does not change the returned response, so it is not part of the
returned value. -/
def process_development_request (consult : Consult) (active_agents : List String)
    (request : DevelopmentRequest) : SynthesizedResponse :=
  validate_development_quality
    (synthesize_development_results (produced_outputs consult active_agents request) request)
    request

/-- Keys of a dict, in insertion order. -/
def dictKeys {α : Type} (d : PyDict α) : List String := d.map (·.1)

/-- `_decisions_overlap`: word-overlap ratio above 0.3 between the two
decision texts (`set` intersection over whitespace-split words). -/
def decisions_overlap (decision1 decision2 : TechnicalDecision) : Bool :=
  let decision1_text := (decision1.decision ++ " " ++ decision1.recommendation).lower
  let decision2_text := (decision2.decision ++ " " ++ decision2.recommendation).lower
  let words1 := (pySplit decision1_text).eraseDups
  let words2 := (pySplit decision2_text).eraseDups
  let overlap := (words1.filter (fun w => words2.contains w)).length
  decide ((overlap : ℚ) / (max (max words1.length words2.length) 1 : Nat) > (3/10))

/-- The fixed topic list of `_find_overlap_areas`. -/
def development_topics : List String :=
  ["architecture", "database", "api", "security", "performance",
   "testing", "deployment", "frontend", "backend", "authentication",
   "authorization", "caching", "monitoring", "logging"]

/-- `_find_overlap_areas`: decision-pair overlaps, shared domain topics in the
serialized result texts, and shared recommendation keys.  The iteration over
the Python key-set intersection is modelled in first-dict key order. -/
def find_overlap_areas (response1 response2 : AgentResponse) : List String :=
  let decision_areas := response1.technical_decisions.flatMap (fun d1 =>
    response2.technical_decisions.filterMap (fun d2 =>
      if decisions_overlap d1 d2 then some ("technical_decision: " ++ d1.decision) else none))
  let result1 := (strOfPyDict response1.result).lower
  let result2 := (strOfPyDict response2.result).lower
  let topic_areas := development_topics.filterMap (fun topic =>
    if strHas result1 topic && strHas result2 topic then some ("domain_expertise: " ++ topic) else none)
  let common_keys := ((dictKeys response1.recommendations).eraseDups).filter
    (fun k => dictHasKey response2.recommendations k)
  let recommendation_areas := common_keys.map (fun k => "recommendation_area: " ++ k)
  decision_areas ++ topic_areas ++ recommendation_areas

/-- `_classify_overlap_type` (priority: decision > expertise > recommendation). -/
def classify_overlap_type (overlap_areas : List String) : String :=
  if overlap_areas.any (fun a => strHas a "technical_decision") then "decision_overlap"
  else if overlap_areas.any (fun a => strHas a "domain_expertise") then "expertise_overlap"
  else if overlap_areas.any (fun a => strHas a "recommendation_area") then "recommendation_overlap"
  else "general_overlap"

/-- `_calculate_overlap_confidence`. -/
def calculate_overlap_confidence (response1 response2 : AgentResponse)
    (overlap_areas : List String) : ℚ :=
  let base_confidence : ℚ := min (9/10) ((overlap_areas.length : ℚ) * (2/10))
  let quality1 := response1.metadata.confidence.getD (5/10)
  let quality2 := response2.metadata.confidence.getD (5/10)
  let quality_boost := (quality1 + quality2) / 2 * (2/10)
  min 1 (base_confidence + quality_boost)

/-- The fixed agent hierarchy of `_determine_resolution_strategy`. -/
def agent_hierarchy (agent : String) : Nat :=
  if agent = "senior-architect" then 5
  else if agent = "security-consultant" then 4
  else if agent = "ux-strategist" then 3
  else if agent = "backend-builder" then 2
  else if agent = "frontend-builder" then 2
  else 1

/-- `_determine_resolution_strategy`. -/
def determine_resolution_strategy (agent1 agent2 : String) (overlap_areas : List String) : String :=
  let priority1 := agent_hierarchy agent1
  let priority2 := agent_hierarchy agent2
  let areas_text := (strOfStringList overlap_areas).lower
  if priority1 > priority2 then "defer_to_" ++ agent1
  else if priority2 > priority1 then "defer_to_" ++ agent2
  else if strHas areas_text "security" then "security_priority"
  else if strHas areas_text "architecture" then "architecture_priority"
  else "consensus_building"

/-- The `impact_assessment` dict of `_assess_overlap_impact`. -/
structure OverlapImpact where
  development_delay_risk : String
  decision_complexity : String
  coordination_overhead : ℚ
  quality_impact : String
  areas_needing_clarification : List String
deriving DecidableEq

/-- `_assess_overlap_impact`. -/
def assess_overlap_impact (_response1 _response2 : AgentResponse)
    (overlap_areas : List String) : OverlapImpact :=
  { development_delay_risk := if overlap_areas.length > 2 then "medium" else "low",
    decision_complexity :=
      if overlap_areas.any (fun a => strHas a "technical_decision") then "high" else "medium",
    coordination_overhead := (overlap_areas.length : ℚ) * (1/10),
    quality_impact := if overlap_areas.length ≤ 2 then "positive" else "neutral",
    areas_needing_clarification := overlap_areas }

/-- The fixed code-area list of `_identify_affected_code_areas`. -/
def code_areas : List String :=
  ["authentication", "authorization", "database", "api", "frontend",
   "backend", "middleware", "routing", "validation", "testing",
   "configuration", "logging", "monitoring", "deployment"]

/-- `_identify_affected_code_areas`. -/
def identify_affected_code_areas (response1 response2 : AgentResponse) : List String :=
  let result1_text := (strOfPyDict response1.result).lower
  let result2_text := (strOfPyDict response2.result).lower
  code_areas.filter (fun area => strHas result1_text area && strHas result2_text area)

/-- `_assess_architectural_impact`. -/
def assess_architectural_impact (response1 response2 : AgentResponse) : String :=
  let combined_text := (strOfPyDict response1.result ++ " " ++ strOfPyDict response2.result).lower
  if hasAny combined_text ["architecture", "design", "pattern", "structure"] then
    "significant - architectural decisions affected"
  else if hasAny combined_text ["database", "api", "integration"] then
    "moderate - component design affected"
  else "minimal - implementation details only"

/-- `_assess_technical_risk`: weighted keyword buckets over the overlap-area
descriptions (high-risk areas 2 points, medium-risk 1). -/
def assess_technical_risk (_response1 _response2 : AgentResponse)
    (overlap_areas : List String) : String :=
  let high_points := 2 * (overlap_areas.filter
    (fun a => hasAny a.lower ["security", "architecture", "database", "authentication"])).length
  let medium_points := (overlap_areas.filter
    (fun a => hasAny a.lower ["api", "performance", "integration"])).length
  let risk_indicators := high_points + medium_points
  if risk_indicators ≥ 4 then "high" else if risk_indicators ≥ 2 then "medium" else "low"

/-- `AgentOverlap` from intelligence_engine.py. -/
structure AgentOverlap where
  agents : List String
  overlap_type : String
  overlap_areas : List String
  confidence : ℚ
  resolution_strategy : String
  impact_assessment : OverlapImpact
  code_areas_affected : List String
  architectural_impact : String
  technical_risk_level : String
deriving DecidableEq

/-- The body of the `_detect_agent_overlaps` pair loop, for the enumerated
responses at positions `p1.1 < p2.1`. -/
def overlap_for_pair (p1 p2 : Nat × AgentResponse) : Option AgentOverlap :=
  let agent1_name := p1.2.metadata.agent_name.getD ("agent_" ++ toString p1.1)
  let agent2_name := p2.2.metadata.agent_name.getD ("agent_" ++ toString p2.1)
  let overlap_areas := find_overlap_areas p1.2 p2.2
  if !overlap_areas.isEmpty then
    some { agents := [agent1_name, agent2_name],
           overlap_type := classify_overlap_type overlap_areas,
           overlap_areas := overlap_areas,
           confidence := calculate_overlap_confidence p1.2 p2.2 overlap_areas,
           resolution_strategy := determine_resolution_strategy agent1_name agent2_name overlap_areas,
           impact_assessment := assess_overlap_impact p1.2 p2.2 overlap_areas,
           code_areas_affected := identify_affected_code_areas p1.2 p2.2,
           architectural_impact := assess_architectural_impact p1.2 p2.2,
           technical_risk_level := assess_technical_risk p1.2 p2.2 overlap_areas }
  else none

/-- `_detect_agent_overlaps`: the pairwise loop over all responses
(no status filtering appears in the source). -/
def detect_agent_overlaps (agent_responses : List AgentResponse) : List AgentOverlap :=
  (allPairs agent_responses.enum).filterMap (fun p => overlap_for_pair p.1 p.2)

/-- `ConflictType` from intelligence_engine.py. -/
inductive ConflictType where
  | architecture_disagreement
  | technology_choice_conflict
  | security_vs_performance
  | implementation_approach_conflict
  | design_pattern_disagreement
  | scope_overlap
deriving DecidableEq

/-- `ConflictSeverity` from intelligence_engine.py. -/
inductive ConflictSeverity where
  | low
  | moderate
  | high
  | critical
deriving DecidableEq

/-- The numeric order of the severity levels (low < moderate < high < critical). -/
def ConflictSeverity.rank : ConflictSeverity → Nat
  | .low => 0
  | .moderate => 1
  | .high => 2
  | .critical => 3

/-- The merged conflict text of `_classify_conflict`:
`str({**conflicts1, **conflicts2}).lower()`. -/
def conflict_text_of (conflicts1 conflicts2 : PyDict String) : String :=
  (strOfPyDict (dictUpdate conflicts1 conflicts2)).lower

/-- The conflict-type branch of `_classify_conflict`. -/
def classify_conflict_type (conflict_text : String) : ConflictType :=
  if strHas conflict_text "architecture" || strHas conflict_text "design" then
    .architecture_disagreement
  else if strHas conflict_text "technology" || strHas conflict_text "framework" then
    .technology_choice_conflict
  else if strHas conflict_text "security" && strHas conflict_text "performance" then
    .security_vs_performance
  else if strHas conflict_text "implementation" || strHas conflict_text "approach" then
    .implementation_approach_conflict
  else if strHas conflict_text "pattern" then
    .design_pattern_disagreement
  else .scope_overlap

/-- The additive severity accumulator of `_classify_conflict`:
+2 for security/architecture/database, +2 for blocking language,
+1 for performance/scalability/bottleneck. -/
def severity_indicators (conflict_text : String) : Nat :=
  (if hasAny conflict_text ["security", "architecture", "database"] then 2 else 0) +
  (if hasAny conflict_text ["cannot", "incompatible", "conflicts", "contradicts"] then 2 else 0) +
  (if hasAny conflict_text ["performance", "scalability", "bottleneck"] then 1 else 0)

/-- The severity thresholds of `_classify_conflict`. -/
def severity_of_indicators (n : Nat) : ConflictSeverity :=
  if n ≥ 4 then .critical else if n ≥ 2 then .high else if n ≥ 1 then .moderate else .low

/-- `_classify_conflict`. -/
def classify_conflict (conflicts1 conflicts2 : PyDict String) :
    ConflictType × ConflictSeverity :=
  let conflict_text := conflict_text_of conflicts1 conflicts2
  (classify_conflict_type conflict_text,
   severity_of_indicators (severity_indicators conflict_text))

/-- `_generate_conflict_description`. -/
def generate_conflict_description (response1 response2 : AgentResponse)
    (conflict_type : ConflictType) : String :=
  let agent1 := response1.metadata.agent_name.getD "Agent 1"
  let agent2 := response2.metadata.agent_name.getD "Agent 2"
  match conflict_type with
  | .architecture_disagreement =>
    agent1 ++ " and " ++ agent2 ++ " have conflicting architectural recommendations"
  | .technology_choice_conflict =>
    agent1 ++ " and " ++ agent2 ++ " recommend different technology choices"
  | .security_vs_performance =>
    "Security requirements from " ++ agent1 ++ " conflict with performance goals from " ++ agent2
  | .implementation_approach_conflict =>
    agent1 ++ " and " ++ agent2 ++ " suggest incompatible implementation approaches"
  | .design_pattern_disagreement =>
    agent1 ++ " and " ++ agent2 ++ " recommend different design patterns"
  | .scope_overlap =>
    agent1 ++ " and " ++ agent2 ++ " have overlapping scope with conflicting recommendations"

/-- `_identify_conflict_root_cause` (only the conflict type is read). -/
def identify_conflict_root_cause (_response1 _response2 : AgentResponse)
    (conflict_type : ConflictType) : String :=
  match conflict_type with
  | .architecture_disagreement => "Different architectural philosophies and trade-off priorities"
  | .technology_choice_conflict => "Varying technology expertise and preference frameworks"
  | .security_vs_performance =>
    "Fundamental trade-off between security requirements and performance optimization"
  | .implementation_approach_conflict =>
    "Different implementation methodologies and development practices"
  | .design_pattern_disagreement =>
    "Varying interpretation of appropriate design patterns for the context"
  | .scope_overlap => "Unclear agent responsibility boundaries and scope definitions"

/-- `_identify_technical_conflict_areas`: same-named decisions with differing
recommendations. -/
def identify_technical_conflict_areas (response1 response2 : AgentResponse) : List String :=
  response1.technical_decisions.flatMap (fun decision1 =>
    response2.technical_decisions.filterMap (fun decision2 =>
      if decision1.decision = decision2.decision &&
         decision1.recommendation ≠ decision2.recommendation then
        some decision1.decision.lower
      else none))

/-- `_assess_conflict_architecture_impact`. -/
def assess_conflict_architecture_impact (response1 response2 : AgentResponse) : String :=
  let combined_text := (strOfPyDict response1.result ++ " " ++ strOfPyDict response2.result).lower
  let arch_mentions := countMatches combined_text
    ["architecture", "design", "pattern", "structure", "component"]
  if arch_mentions ≥ 3 then "high - fundamental architectural decisions affected"
  else if arch_mentions ≥ 1 then "medium - architectural components affected"
  else "low - implementation details only"

/-- The `performance_implications` dict. -/
structure PerformanceImplications where
  impact_level : String
  areas_affected : List String
  optimization_required : Bool
  performance_testing_needed : Bool
deriving DecidableEq

/-- `_analyze_performance_implications`. -/
def analyze_performance_implications (response1 response2 : AgentResponse) :
    PerformanceImplications :=
  let perf_keywords := ["performance", "speed", "latency", "throughput", "optimization", "bottleneck"]
  let combined_text := (strOfPyDict response1.result ++ " " ++ strOfPyDict response2.result).lower
  let perf_impact := countMatches combined_text perf_keywords
  { impact_level := if perf_impact ≥ 2 then "high" else if perf_impact ≥ 1 then "medium" else "low",
    areas_affected := perf_keywords.filter (fun k => strHas combined_text k),
    optimization_required := perf_impact ≥ 2,
    performance_testing_needed := perf_impact ≥ 1 }

/-- The `security_implications` dict. -/
structure SecurityImplications where
  impact_level : String
  security_areas_affected : List String
  security_review_required : Bool
  threat_model_update_needed : Bool
deriving DecidableEq

/-- `_analyze_security_implications`. -/
def analyze_security_implications (response1 response2 : AgentResponse) :
    SecurityImplications :=
  let security_keywords := ["security", "authentication", "authorization", "encryption", "vulnerability", "threat"]
  let combined_text := (strOfPyDict response1.result ++ " " ++ strOfPyDict response2.result).lower
  let security_impact := countMatches combined_text security_keywords
  { impact_level :=
      if security_impact ≥ 3 then "critical"
      else if security_impact ≥ 2 then "high"
      else if security_impact ≥ 1 then "medium" else "low",
    security_areas_affected := security_keywords.filter (fun k => strHas combined_text k),
    security_review_required := security_impact ≥ 1,
    threat_model_update_needed := security_impact ≥ 2 }

/-- One resolution option. -/
structure ResolutionOption where
  option : String
  description : String
  pros : List String
  cons : List String
  implementation_effort : String
deriving DecidableEq

/-- `_generate_resolution_options` (fixed per-type menus). -/
def generate_resolution_options (response1 response2 : AgentResponse)
    (conflict_type : ConflictType) : List ResolutionOption :=
  let agent1 := response1.metadata.agent_name.getD "Agent 1"
  let agent2 := response2.metadata.agent_name.getD "Agent 2"
  match conflict_type with
  | .architecture_disagreement =>
    [{ option := "senior_architect_decision",
       description := "Senior architect makes final architectural decision",
       pros := ["Clear decision authority", "Architectural consistency"],
       cons := ["May not consider all specialized perspectives"],
       implementation_effort := "low" },
     { option := "hybrid_approach",
       description := "Combine elements from both " ++ agent1 ++ " and " ++ agent2 ++ " approaches",
       pros := ["Incorporates multiple perspectives", "Potentially optimal solution"],
       cons := ["Increased complexity", "Potential inconsistencies"],
       implementation_effort := "medium" },
     { option := "prototype_evaluation",
       description := "Build small prototypes to evaluate both approaches",
       pros := ["Data-driven decision", "Validates assumptions"],
       cons := ["Additional development time", "Resource overhead"],
       implementation_effort := "high" }]
  | .security_vs_performance =>
    [{ option := "security_priority",
       description := "Prioritize security requirements, optimize performance within constraints",
       pros := ["Security compliance maintained", "Risk mitigation"],
       cons := ["Potential performance limitations"],
       implementation_effort := "medium" },
     { option := "performance_priority",
       description := "Prioritize performance, implement security measures that don\x27t impact performance",
       pros := ["Optimal performance maintained", "User experience preserved"],
       cons := ["Security risks may remain", "Compliance challenges"],
       implementation_effort := "medium" },
     { option := "balanced_approach",
       description := "Find middle ground with acceptable performance and security",
       pros := ["Balanced solution", "Stakeholder compromise"],
       cons := ["May not fully optimize either aspect"],
       implementation_effort := "high" }]
  | _ =>
    [{ option := "defer_to_" ++ agent1,
       description := "Accept " ++ agent1 ++ " recommendations",
       pros := [agent1 ++ " domain expertise"],
       cons := ["May miss " ++ agent2 ++ " insights"],
       implementation_effort := "low" },
     { option := "defer_to_" ++ agent2,
       description := "Accept " ++ agent2 ++ " recommendations",
       pros := [agent2 ++ " domain expertise"],
       cons := ["May miss " ++ agent1 ++ " insights"],
       implementation_effort := "low" },
     { option := "consensus_building",
       description := "Facilitate discussion to build consensus",
       pros := ["Collaborative solution", "Buy-in from all agents"],
       cons := ["Time-intensive", "May not reach agreement"],
       implementation_effort := "medium" }]

/-- `_requires_stakeholder_input`. -/
def requires_stakeholder_input (conflict_type : ConflictType)
    (severity : ConflictSeverity) : Bool :=
  if severity = .critical then true
  else if severity = .high &&
      (conflict_type = .architecture_disagreement || conflict_type = .security_vs_performance) then
    true
  else false

/-- `ConflictAnalysis` from intelligence_engine.py. -/
structure ConflictAnalysis where
  conflict_id : String
  agents_involved : List String
  conflict_type : ConflictType
  severity : ConflictSeverity
  description : String
  root_cause : String
  technical_areas : List String
  architecture_impact : String
  performance_implications : PerformanceImplications
  security_implications : SecurityImplications
  resolution_options : List ResolutionOption
  stakeholder_input_required : Bool
deriving DecidableEq

/-- `_detect_response_conflict`.  `conflict_history_len` is
`len(self.conflict_history)`, the engine's mutable history length read when
building `conflict_id`; it is constant for the duration of one
`_analyze_conflicts` call because the history is extended only afterwards by
`_update_intelligence_state`. -/
def detect_response_conflict (conflict_history_len : Nat)
    (response1 response2 : AgentResponse) : Option ConflictAnalysis :=
  let agent1 := response1.metadata.agent_name.getD "unknown"
  let agent2 := response2.metadata.agent_name.getD "unknown"
  let conflicts1 := response1.potential_conflicts
  let conflicts2 := response2.potential_conflicts
  if !conflicts1.isEmpty || !conflicts2.isEmpty then
    let classified := classify_conflict conflicts1 conflicts2
    if classified.2 ≠ ConflictSeverity.low then
      some { conflict_id :=
               "conflict_" ++ agent1 ++ "_" ++ agent2 ++ "_" ++ toString conflict_history_len,
             agents_involved := [agent1, agent2],
             conflict_type := classified.1,
             severity := classified.2,
             description := generate_conflict_description response1 response2 classified.1,
             root_cause := identify_conflict_root_cause response1 response2 classified.1,
             technical_areas := identify_technical_conflict_areas response1 response2,
             architecture_impact := assess_conflict_architecture_impact response1 response2,
             performance_implications := analyze_performance_implications response1 response2,
             security_implications := analyze_security_implications response1 response2,
             resolution_options := generate_resolution_options response1 response2 classified.1,
             stakeholder_input_required := requires_stakeholder_input classified.1 classified.2 }
    else none
  else none

/-- `_analyze_conflicts`: the pairwise loop over all responses
(no status filtering appears in the source). -/
def analyze_conflicts (conflict_history_len : Nat)
    (agent_responses : List AgentResponse) : List ConflictAnalysis :=
  (allPairs agent_responses).filterMap
    (fun p => detect_response_conflict conflict_history_len p.1 p.2)

/-- `QualityMetricType` from intelligence_engine.py. -/
inductive QualityMetricType where
  | code_complexity
  | test_coverage
  | technical_debt
  | security_score
  | performance_index
  | maintainability
  | documentation_coverage
deriving DecidableEq

/-- `QualityMetrics` from intelligence_engine.py; heterogeneous `details`
values are stored as their string renderings. -/
structure QualityMetrics where
  metric_type : QualityMetricType
  score : ℚ
  threshold : ℚ
  status : String
  details : PyDict String
  improvement_suggestions : List String
deriving DecidableEq

/-- The per-response accumulation step of `_assess_code_complexity`
(indicator count and detail flags). -/
def complexity_scan (acc : Nat × PyDict String) (response : AgentResponse) :
    Nat × PyDict String :=
  let result_text := (strOfPyDict response.result).lower
  let acc1 := if strHas result_text "complex" || strHas result_text "complicated" then
      (acc.1 + 1, acc.2) else acc
  let acc2 :=
    if strHas result_text "microservices" then
      (acc1.1 + 2, dictInsert acc1.2 "architecture_complexity" "high")
    else if strHas result_text "monolith" then
      (acc1.1, dictInsert acc1.2 "architecture_complexity" "low")
    else acc1
  let decision_hits := (response.technical_decisions.filter (fun d =>
    hasAny (strOfDecision d).lower ["complex", "intricate", "sophisticated"])).length
  (acc2.1 + decision_hits, acc2.2)

/-- `_assess_code_complexity`: score `max(0.1, 1 - 0.2 * indicators)`,
threshold 0.6. -/
def assess_code_complexity (agent_responses : List AgentResponse) : QualityMetrics :=
  let scan := agent_responses.foldl complexity_scan (0, [])
  let complexity_indicators := scan.1
  let base_score : ℚ := max (1/10) (1 - (complexity_indicators : ℚ) * (2/10))
  let improvement_suggestions :=
    if complexity_indicators ≥ 3 then
      ["Consider simplifying architecture design",
       "Implement clear component boundaries",
       "Review complexity of business logic"]
    else []
  let status := if base_score ≥ (6/10) then "pass" else if base_score ≥ (4/10) then "warning" else "fail"
  { metric_type := .code_complexity,
    score := base_score,
    threshold := (6/10),
    status := status,
    details := dictUpdate [("complexity_indicators", toString complexity_indicators)] scan.2,
    improvement_suggestions := improvement_suggestions }

/-- `_assess_security_score`: base 0.5 plus bonuses from the designated
security consultant's sections, else capped at 0.3; threshold 0.8. -/
def assess_security_score (agent_responses : List AgentResponse) : QualityMetrics :=
  match agent_responses.find? (fun r => r.metadata.agent_name == some "security-consultant") with
  | some security_response =>
    let result := security_response.result
    let s1 : ℚ := (5/10) +
      (if dictHasKey result "security_analysis" then (2/10) else 0) +
      (if dictHasKey result "threat_model" then (2/10) else 0) +
      (if dictHasKey result "compliance_requirements" then (1/10) else 0)
    let decision_bonus : ℚ := (1/10) * ((security_response.technical_decisions.filter
      (fun d => strHas d.decision.lower "security")).length : ℚ)
    let security_score := min 1 (s1 + decision_bonus)
    let security_details :=
      (if dictHasKey result "security_analysis" then [("security_analysis_complete", "True")] else []) ++
      (if dictHasKey result "threat_model" then [("threat_modeling_complete", "True")] else []) ++
      (if dictHasKey result "compliance_requirements" then [("compliance_addressed", "True")] else [])
    let status := if security_score ≥ (8/10) then "pass"
      else if security_score ≥ (6/10) then "warning" else "fail"
    let improvement_suggestions :=
      if security_score < (8/10) then
        ["Conduct comprehensive security analysis",
         "Implement threat modeling",
         "Review security technical decisions"]
      else []
    { metric_type := .security_score, score := security_score, threshold := (8/10),
      status := status, details := security_details,
      improvement_suggestions := improvement_suggestions }
  | none =>
    let security_score : ℚ := min 1 (3/10)
    { metric_type := .security_score, score := security_score, threshold := (8/10),
      status := "fail", details := [],
      improvement_suggestions :=
        ["Include security consultant in development process",
         "Conduct comprehensive security analysis",
         "Implement threat modeling",
         "Review security technical decisions"] }

/-- The per-response accumulation step of `_assess_test_coverage`. -/
def test_coverage_scan (acc : ℚ × PyDict String) (response : AgentResponse) :
    ℚ × PyDict String :=
  let result_text := (strOfPyDict response.result).lower
  let acc1 := if strHas result_text "test" then (acc.1 + (2/10), acc.2) else acc
  let acc2 := if strHas result_text "unit test" then
      (acc1.1 + (2/10), dictInsert acc1.2 "unit_testing_mentioned" "True") else acc1
  let acc3 := if strHas result_text "integration test" then
      (acc2.1 + (2/10), dictInsert acc2.2 "integration_testing_mentioned" "True") else acc2
  let acc4 := if strHas result_text "coverage" then
      (acc3.1 + (2/10), dictInsert acc3.2 "coverage_requirements_mentioned" "True") else acc3
  let decision_hits := (response.technical_decisions.filter
    (fun d => strHas d.decision.lower "test")).length
  (acc4.1 + (2/10) * (decision_hits : ℚ), acc4.2)

/-- `_assess_test_coverage`: +0.2 per testing mention, capped at 1.0,
threshold 0.6. -/
def assess_test_coverage (agent_responses : List AgentResponse) : QualityMetrics :=
  let scan := agent_responses.foldl test_coverage_scan (0, [])
  let test_score := min 1 scan.1
  let status := if test_score ≥ (6/10) then "pass" else if test_score ≥ (4/10) then "warning" else "fail"
  let improvement_suggestions :=
    if test_score < (6/10) then
      ["Include comprehensive testing strategy",
       "Define unit testing requirements",
       "Establish integration testing approach",
       "Set test coverage targets"]
    else []
  { metric_type := .test_coverage, score := test_score, threshold := (6/10),
    status := status, details := scan.2,
    improvement_suggestions := improvement_suggestions }

/-- The per-response accumulation step of `_assess_technical_debt`
(`debt_risk` and detail flags). -/
def technical_debt_scan (acc : ℚ × PyDict String) (response : AgentResponse) :
    ℚ × PyDict String :=
  let result_text := (strOfPyDict response.result).lower
  let acc1 := if strHas result_text "quick fix" || strHas result_text "temporary" then
      (acc.1 + (2/10), dictInsert acc.2 "temporary_solutions_mentioned" "True") else acc
  let acc2 := if strHas result_text "legacy" && strHas result_text "maintain" then
      (acc1.1 + (1/10), dictInsert acc1.2 "legacy_maintenance_required" "True") else acc1
  let acc3 := if strHas result_text "workaround" then
      (acc2.1 + (2/10), dictInsert acc2.2 "workarounds_mentioned" "True") else acc2
  let acc4 := if strHas result_text "refactor" || strHas result_text "clean" then
      (acc3.1 - (1/10), dictInsert acc3.2 "refactoring_mentioned" "True") else acc3
  let acc5 := if strHas result_text "best practices" || strHas result_text "clean code" then
      (acc4.1 - (1/10), dictInsert acc4.2 "best_practices_mentioned" "True") else acc4
  acc5

/-- `_assess_technical_debt`: inverted debt risk, `max(0.0, 1.0 - debt_risk)`;
threshold 0.7.  Note that only the lower end is clamped. -/
def assess_technical_debt (agent_responses : List AgentResponse) : QualityMetrics :=
  let scan := agent_responses.foldl technical_debt_scan (0, [])
  let debt_score : ℚ := max 0 (1 - scan.1)
  let status := if debt_score ≥ (7/10) then "pass" else if debt_score ≥ (5/10) then "warning" else "fail"
  let improvement_suggestions :=
    if debt_score < (7/10) then
      ["Avoid temporary solutions and workarounds",
       "Plan for code refactoring",
       "Follow clean code principles",
       "Document technical debt for future resolution"]
    else []
  { metric_type := .technical_debt, score := debt_score, threshold := (7/10),
    status := status, details := scan.2,
    improvement_suggestions := improvement_suggestions }

/-- The per-response accumulation step of `_assess_maintainability`. -/
def maintainability_scan (acc : ℚ × PyDict String) (response : AgentResponse) :
    ℚ × PyDict String :=
  let result_text := (strOfPyDict response.result).lower
  let acc1 := if strHas result_text "documentation" then
      (acc.1 + (1/10), dictInsert acc.2 "documentation_mentioned" "True") else acc
  let acc2 := if strHas result_text "modular" || strHas result_text "component" then
      (acc1.1 + (1/10), dictInsert acc1.2 "modular_design_mentioned" "True") else acc1
  let acc3 := if strHas result_text "clean" && strHas result_text "code" then
      (acc2.1 + (1/10), dictInsert acc2.2 "clean_code_mentioned" "True") else acc2
  let acc4 := if strHas result_text "pattern" then
      (acc3.1 + (1/10), dictInsert acc3.2 "design_patterns_mentioned" "True") else acc3
  let acc5 := if strHas result_text "standard" || strHas result_text "convention" then
      (acc4.1 + (1/10), dictInsert acc4.2 "standards_mentioned" "True") else acc4
  let decision_hits := (response.technical_decisions.filter (fun d =>
    hasAny (strOfDecision d).lower ["maintainable", "clean", "modular", "standard"])).length
  (acc5.1 + (1/10) * (decision_hits : ℚ), acc5.2)

/-- `_assess_maintainability`: base 0.5 plus credits, capped at 1.0,
threshold 0.7. -/
def assess_maintainability (agent_responses : List AgentResponse) : QualityMetrics :=
  let scan := agent_responses.foldl maintainability_scan ((5/10), [])
  let maintainability_score := min 1 scan.1
  let status := if maintainability_score ≥ (7/10) then "pass"
    else if maintainability_score ≥ (5/10) then "warning" else "fail"
  let improvement_suggestions :=
    if maintainability_score < (7/10) then
      ["Include comprehensive documentation requirements",
       "Design for modularity and component reuse",
       "Follow clean code principles and standards",
       "Implement consistent design patterns"]
    else []
  { metric_type := .maintainability, score := maintainability_score, threshold := (7/10),
    status := status, details := scan.2,
    improvement_suggestions := improvement_suggestions }

/-- `_assess_code_quality`: one record per implemented metric kind, in the
enum's declaration order (`performance_index` and `documentation_coverage`
return `None` in `_calculate_quality_metric` and are skipped). -/
def assess_code_quality (agent_responses : List AgentResponse) : List QualityMetrics :=
  [assess_code_complexity agent_responses,
   assess_test_coverage agent_responses,
   assess_technical_debt agent_responses,
   assess_security_score agent_responses,
   assess_maintainability agent_responses]

/-- `MethodologyType` from methodology_validator.py. -/
inductive MethodologyType where
  | clean_architecture
  | solid_principles
  | owasp_security
  | nist_cybersecurity
  | ux_design_thinking
  | rest_api_design
  | agile_development
  | test_driven_development
  | domain_driven_design
  | microservices_patterns
deriving DecidableEq

/-- The enum `.value` strings. -/
def MethodologyType.value : MethodologyType → String
  | .clean_architecture => "clean_architecture"
  | .solid_principles => "solid_principles"
  | .owasp_security => "owasp_security"
  | .nist_cybersecurity => "nist_cybersecurity"
  | .ux_design_thinking => "ux_design_thinking"
  | .rest_api_design => "rest_api_design"
  | .agile_development => "agile_development"
  | .test_driven_development => "tdd"
  | .domain_driven_design => "ddd"
  | .microservices_patterns => "microservices_patterns"

/-- `ValidationSeverity` from methodology_validator.py. -/
inductive ValidationSeverity where
  | info
  | warning
  | error
  | critical
deriving DecidableEq

/-- The enum `.value` strings. -/
def ValidationSeverity.value : ValidationSeverity → String
  | .info => "info"
  | .warning => "warning"
  | .error => "error"
  | .critical => "critical"

/-- `ValidationIssue` from methodology_validator.py. -/
structure ValidationIssue where
  severity : ValidationSeverity
  methodology : MethodologyType
  issue_type : String
  description : String
  recommendation : String
  affected_content : String
  line_reference : Option Nat
deriving DecidableEq

/-- `MethodologyValidationResult` from methodology_validator.py. -/
structure MethodologyValidationResult where
  agent_name : String
  methodology_claimed : String
  validation_score : ℚ
  overall_compliance : String
  issues : List ValidationIssue
  strengths : List String
  improvement_areas : List String
  methodology_consistency : Bool
  expert_framework_adherence : ℚ
deriving DecidableEq

/-- Models Python `s.replace("_", " ")`. -/
def underscoresToSpaces (s : String) : String :=
  pyJoin " " (pySplitOn s "_")

/-- `_map_methodology_string_to_type`. -/
def map_methodology_string_to_type (methodology_string : String) : Option MethodologyType :=
  let methodology_lower := methodology_string.lower
  if strHas methodology_lower "clean architecture" then some .clean_architecture
  else if strHas methodology_lower "solid" then some .solid_principles
  else if strHas methodology_lower "owasp" then some .owasp_security
  else if strHas methodology_lower "nist" then some .nist_cybersecurity
  else if hasAny methodology_lower ["ux", "design thinking", "user experience"] then some .ux_design_thinking
  else if strHas methodology_lower "rest" || strHas methodology_lower "api" then some .rest_api_design
  else if strHas methodology_lower "microservices" then some .microservices_patterns
  else if strHas methodology_lower "tdd" || strHas methodology_lower "test driven" then some .test_driven_development
  else if strHas methodology_lower "ddd" || strHas methodology_lower "domain driven" then some .domain_driven_design
  else none

/-- `_extract_full_response_text`: result values, stringified technical
decisions and recommendation values, joined with spaces. -/
def extract_full_response_text (agent_response : AgentResponse) : String :=
  let result_parts := agent_response.result.map (·.2)
  let decision_parts := agent_response.technical_decisions.map strOfDecision
  let recommendation_parts := agent_response.recommendations.map (·.2)
  pyJoin " " (result_parts ++ decision_parts ++ recommendation_parts)

/-- Clean Architecture rubric: `core_principles`. -/
def ca_core_principles : List String :=
  ["independence_of_frameworks", "testability", "independence_of_ui",
   "independence_of_database", "independence_of_external_agency"]

/-- Clean Architecture rubric: `layer_structure`. -/
def ca_layer_structure : List String :=
  ["entities", "use_cases", "interface_adapters", "frameworks_drivers"]

/-- Clean Architecture rubric: `required_concepts`. -/
def ca_required_concepts : List String :=
  ["separation_of_concerns", "dependency_inversion", "business_logic_isolation",
   "testable_architecture", "framework_independence"]

/-- Clean Architecture rubric: `anti_patterns`. -/
def ca_anti_patterns : List String :=
  ["business_logic_in_ui", "database_logic_in_business",
   "tight_framework_coupling", "circular_dependencies"]

/-- `_validate_clean_architecture`. -/
def validate_clean_architecture (agent_response : AgentResponse)
    (result : MethodologyValidationResult) : MethodologyValidationResult :=
  let response_text := (extract_full_response_text agent_response).lower
  let principle_hits := ca_core_principles.filter
    (fun principle => (pySplitOn principle "_").any (fun keyword => strHas response_text keyword))
  let principles_mentioned := principle_hits.length
  let result := { result with strengths := (result.strengths ++
    principle_hits.map (fun principle => "Mentions " ++ underscoresToSpaces principle)) }
  let result :=
    if principles_mentioned = 0 then
      { result with issues := result.issues ++
        [⟨.error, .clean_architecture, "missing_core_principles",
          "No Clean Architecture core principles mentioned",
          "Include discussion of framework independence, testability, UI independence, etc.",
          "", none⟩] }
    else if principles_mentioned < 3 then
      { result with issues := result.issues ++
        [⟨.warning, .clean_architecture, "insufficient_principle_coverage",
          "Only " ++ toString principles_mentioned ++ "/5 core principles mentioned",
          "Provide more comprehensive Clean Architecture guidance", "", none⟩] }
    else result
  let concept_hits := ca_required_concepts.filter
    (fun concept => strHas response_text (underscoresToSpaces concept))
  let result := { result with strengths := (result.strengths ++
    concept_hits.map (fun concept => "Addresses " ++ underscoresToSpaces concept)) }
  let result :=
    if concept_hits.length < 2 then
      { result with issues := result.issues ++
        [⟨.warning, .clean_architecture, "missing_key_concepts",
          "Insufficient Clean Architecture concepts discussed",
          "Include separation of concerns, dependency inversion, business logic isolation",
          "", none⟩] }
    else result
  let anti_pattern_warnings := (ca_anti_patterns.filter (fun anti_pattern =>
    strHas response_text (underscoresToSpaces anti_pattern) || strHas response_text "avoid")).length
  let result :=
    if anti_pattern_warnings = 0 then
      { result with improvement_areas := result.improvement_areas ++
        ["Include warnings about Clean Architecture anti-patterns"] }
    else result
  if ca_layer_structure.any (fun layer => strHas response_text layer) then
    { result with strengths := result.strengths ++ ["Demonstrates layer structure understanding"] }
  else
    { result with improvement_areas := result.improvement_areas ++
      ["Explain Clean Architecture layer structure"] }

/-- One SOLID principle entry of the rubric. -/
structure SolidPrinciple where
  name : String
  keywords : List String
  anti_patterns : List String
deriving DecidableEq

/-- SOLID rubric: the five principles (dict insertion order). -/
def solid_principles_data : List SolidPrinciple :=
  [⟨"single_responsibility",
    ["single responsibility", "one reason to change", "cohesion"],
    ["god class", "swiss army knife", "multiple responsibilities"]⟩,
   ⟨"open_closed",
    ["open closed", "extension", "modification", "polymorphism"],
    ["modification of existing code", "breaking changes"]⟩,
   ⟨"liskov_substitution",
    ["substitution", "inheritance", "polymorphism", "contract"],
    ["violated contracts", "strengthened preconditions"]⟩,
   ⟨"interface_segregation",
    ["interface segregation", "client specific", "minimal interface"],
    ["fat interface", "interface pollution", "unused methods"]⟩,
   ⟨"dependency_inversion",
    ["dependency inversion", "abstraction", "dependency injection"],
    ["concrete dependencies", "tight coupling", "direct instantiation"]⟩]

/-- SOLID rubric: `implementation_patterns`. -/
def solid_implementation_patterns : List String :=
  ["dependency_injection", "factory_pattern", "strategy_pattern",
   "observer_pattern", "adapter_pattern"]

/-- The per-principle accumulation step of `_validate_solid_principles`
(count of covered principles and collected strengths). -/
def solid_scan_step (response_text : String) (acc : Nat × List String)
    (p : SolidPrinciple) : Nat × List String :=
  let principle_mentioned := p.keywords.any (fun keyword => strHas response_text keyword)
  let acc1 := if principle_mentioned then
      (acc.1 + 1, acc.2 ++ ["Addresses " ++ underscoresToSpaces p.name ++ " principle"])
    else acc
  let anti_strengths := p.anti_patterns.filterMap (fun anti_pattern =>
    if strHas response_text anti_pattern || strHas response_text "avoid" then
      some ("Warns against " ++ anti_pattern)
    else none)
  (acc1.1, acc1.2 ++ anti_strengths)

/-- `_validate_solid_principles`. -/
def validate_solid_principles (agent_response : AgentResponse)
    (result : MethodologyValidationResult) : MethodologyValidationResult :=
  let response_text := (extract_full_response_text agent_response).lower
  let scan := solid_principles_data.foldl (solid_scan_step response_text) (0, [])
  let principles_covered := scan.1
  let result := { result with strengths := result.strengths ++ scan.2 }
  let result :=
    if principles_covered = 0 then
      { result with issues := result.issues ++
        [⟨.critical, .solid_principles, "no_solid_principles",
          "No SOLID principles mentioned in response",
          "Agent claiming SOLID methodology must discuss relevant principles", "", none⟩] }
    else if principles_covered < 3 then
      { result with issues := result.issues ++
        [⟨.warning, .solid_principles, "incomplete_solid_coverage",
          "Only " ++ toString principles_covered ++ "/5 SOLID principles covered",
          "Provide more comprehensive SOLID principles guidance", "", none⟩] }
    else result
  let pattern_hits := solid_implementation_patterns.filter
    (fun pattern => strHas response_text (underscoresToSpaces pattern))
  let result := { result with strengths := (result.strengths ++
    pattern_hits.map (fun pattern => "Mentions " ++ underscoresToSpaces pattern)) }
  if pattern_hits.isEmpty then
    { result with improvement_areas := result.improvement_areas ++
      ["Include SOLID implementation patterns (DI, Factory, Strategy, etc.)"] }
  else result

/-- One OWASP Top-10 entry of the rubric. -/
structure OwaspVuln where
  name : String
  mitigations : List String
  keywords : List String
deriving DecidableEq

/-- OWASP rubric: `top_10_2021` (dict insertion order). -/
def owasp_top_10_2021 : List OwaspVuln :=
  [⟨"A01_broken_access_control",
    ["principle_of_least_privilege", "deny_by_default", "rate_limiting"],
    ["access control", "authorization", "privilege", "permissions"]⟩,
   ⟨"A02_cryptographic_failures",
    ["encryption_at_rest", "encryption_in_transit", "secure_key_management"],
    ["encryption", "cryptography", "sensitive data", "key management"]⟩,
   ⟨"A03_injection",
    ["parameterized_queries", "input_validation", "output_encoding"],
    ["injection", "sql injection", "input validation", "parameterized"]⟩,
   ⟨"A04_insecure_design",
    ["secure_design_patterns", "threat_modeling", "secure_development"],
    ["secure design", "threat modeling", "security architecture"]⟩,
   ⟨"A05_security_misconfiguration",
    ["security_hardening", "configuration_management", "minimal_platform"],
    ["configuration", "hardening", "security settings", "defaults"]⟩]

/-- OWASP rubric: `security_principles`. -/
def owasp_security_principles : List String :=
  ["defense_in_depth", "principle_of_least_privilege", "fail_securely",
   "secure_by_default", "separation_of_duties", "complete_mediation"]

/-- OWASP rubric: `validation_categories`. -/
def owasp_validation_categories : List String :=
  ["authentication", "authorization", "input_validation", "output_encoding",
   "session_management", "cryptography", "error_handling", "logging"]

/-- The per-vulnerability accumulation step of `_validate_owasp_security`
(count of covered items, strengths, improvement areas). -/
def owasp_scan_step (response_text : String) (acc : Nat × List String × List String)
    (vuln : OwaspVuln) : Nat × List String × List String :=
  if vuln.keywords.any (fun keyword => strHas response_text keyword) then
    let mitigation_hits := vuln.mitigations.filter
      (fun mitigation => strHas response_text (underscoresToSpaces mitigation))
    let mitigation_strengths :=
      mitigation_hits.map (fun m => "Provides " ++ underscoresToSpaces m ++ " guidance")
    let new_improvements :=
      if mitigation_hits.isEmpty then ["Include specific mitigations for " ++ vuln.name] else []
    (acc.1 + 1,
     acc.2.1 ++ ["Addresses " ++ underscoresToSpaces vuln.name] ++ mitigation_strengths,
     acc.2.2 ++ new_improvements)
  else acc

/-- `_validate_owasp_security`. -/
def validate_owasp_security (agent_response : AgentResponse)
    (result : MethodologyValidationResult) : MethodologyValidationResult :=
  let response_text := (extract_full_response_text agent_response).lower
  let scan := owasp_top_10_2021.foldl (owasp_scan_step response_text) (0, [], [])
  let top10_mentioned := scan.1
  let result := { result with
    strengths := result.strengths ++ scan.2.1,
    improvement_areas := result.improvement_areas ++ scan.2.2 }
  let result :=
    if top10_mentioned = 0 then
      { result with issues := result.issues ++
        [⟨.error, .owasp_security, "no_owasp_coverage",
          "No OWASP Top 10 vulnerabilities addressed",
          "Security analysis should reference relevant OWASP Top 10 items", "", none⟩] }
    else result
  let principle_hits := owasp_security_principles.filter
    (fun principle => strHas response_text (underscoresToSpaces principle))
  let result := { result with strengths := (result.strengths ++
    principle_hits.map (fun p => "Applies " ++ underscoresToSpaces p ++ " principle")) }
  let result :=
    if principle_hits.isEmpty then
      { result with improvement_areas := result.improvement_areas ++
        ["Include fundamental security principles (defense in depth, least privilege, etc.)"] }
    else result
  let categories_covered := (owasp_validation_categories.filter
    (fun category => strHas response_text category)).length
  if categories_covered < 3 then
    { result with improvement_areas := result.improvement_areas ++
      ["Cover more security validation categories (auth, input validation, crypto, etc.)"] }
  else result

/-- One NIST framework function entry of the rubric. -/
structure NistFunction where
  name : String
  categories : List String
  keywords : List String
deriving DecidableEq

/-- NIST rubric: `framework_functions` (dict insertion order). -/
def nist_framework_functions : List NistFunction :=
  [⟨"identify",
    ["asset_management", "business_environment", "governance", "risk_assessment"],
    ["identify", "inventory", "risk assessment", "governance"]⟩,
   ⟨"protect",
    ["identity_management", "awareness_training", "data_security", "protective_technology"],
    ["protect", "access control", "data protection", "training"]⟩,
   ⟨"detect",
    ["anomalies_events", "security_monitoring", "detection_processes"],
    ["detect", "monitoring", "logging", "anomaly detection"]⟩,
   ⟨"respond",
    ["response_planning", "communications", "analysis", "mitigation"],
    ["respond", "incident response", "mitigation", "communications"]⟩,
   ⟨"recover",
    ["recovery_planning", "improvements", "communications"],
    ["recover", "backup", "recovery", "business continuity"]⟩]

/-- The per-function accumulation step of `_validate_nist_cybersecurity`. -/
def nist_scan_step (response_text : String) (acc : Nat × List String)
    (fn : NistFunction) : Nat × List String :=
  if fn.keywords.any (fun keyword => strHas response_text keyword) then
    let categories_mentioned := (fn.categories.filter
      (fun category => strHas response_text (underscoresToSpaces category))).length
    let category_strengths :=
      if categories_mentioned > 0 then
        ["Covers " ++ toString categories_mentioned ++ " " ++ fn.name ++ " categories"]
      else []
    (acc.1 + 1,
     acc.2 ++ ["Addresses NIST " ++ fn.name.upper ++ " function"] ++ category_strengths)
  else acc

/-- `_validate_nist_cybersecurity`. -/
def validate_nist_cybersecurity (agent_response : AgentResponse)
    (result : MethodologyValidationResult) : MethodologyValidationResult :=
  let response_text := (extract_full_response_text agent_response).lower
  let scan := nist_framework_functions.foldl (nist_scan_step response_text) (0, [])
  let functions_mentioned := scan.1
  let result := { result with strengths := result.strengths ++ scan.2 }
  if functions_mentioned = 0 then
    { result with issues := result.issues ++
      [⟨.warning, .nist_cybersecurity, "no_nist_functions",
        "No NIST Cybersecurity Framework functions addressed",
        "Reference relevant NIST framework functions (Identify, Protect, Detect, Respond, Recover)",
        "", none⟩] }
  else if functions_mentioned < 3 then
    { result with improvement_areas := result.improvement_areas ++
      ["Consider broader NIST framework coverage across multiple functions"] }
  else result

/-- UX rubric: `design_thinking_process`. -/
def ux_design_thinking_process : List String :=
  ["empathize", "define", "ideate", "prototype", "test"]

/-- UX rubric: `don_norman_principles`. -/
def ux_don_norman_principles : List String :=
  ["visibility", "feedback", "constraints", "mapping", "consistency", "affordance"]

/-- UX rubric: `usability_heuristics`. -/
def ux_usability_heuristics : List String :=
  ["visibility_of_system_status", "match_system_real_world", "user_control_freedom",
   "consistency_standards", "error_prevention", "recognition_vs_recall",
   "flexibility_efficiency", "aesthetic_minimalist_design", "error_recovery",
   "help_documentation"]

/-- UX rubric: `user_centered_design`. -/
def ux_user_centered_design : List String :=
  ["user_research", "persona_development", "user_journey_mapping",
   "usability_testing", "accessibility", "inclusive_design"]

/-- `_validate_ux_design_thinking`. -/
def validate_ux_design_thinking (agent_response : AgentResponse)
    (result : MethodologyValidationResult) : MethodologyValidationResult :=
  let response_text := (extract_full_response_text agent_response).lower
  let step_hits := ux_design_thinking_process.filter (fun step => strHas response_text step)
  let result := { result with strengths := (result.strengths ++
    step_hits.map (fun step => "References " ++ step ++ " phase of design thinking")) }
  let result :=
    if step_hits.isEmpty then
      { result with improvement_areas := result.improvement_areas ++
        ["Include design thinking process steps (empathize, define, ideate, prototype, test)"] }
    else result
  let norman_hits := ux_don_norman_principles.filter
    (fun principle => strHas response_text principle)
  let result := { result with strengths := (result.strengths ++
    norman_hits.map (fun principle => "Applies " ++ principle ++ " principle")) }
  let result :=
    if norman_hits.isEmpty then
      { result with improvement_areas := result.improvement_areas ++
        ["Reference Don Norman\x27s design principles"] }
    else result
  let heuristics_mentioned := (ux_usability_heuristics.filter (fun heuristic =>
    (pySplit (underscoresToSpaces heuristic)).any (fun word => strHas response_text word))).length
  let result :=
    if heuristics_mentioned > 3 then
      { result with strengths := result.strengths ++
        ["Addresses " ++ toString heuristics_mentioned ++ " usability heuristics"] }
    else if heuristics_mentioned = 0 then
      { result with improvement_areas := result.improvement_areas ++
        ["Include usability heuristics and guidelines"] }
    else result
  let ucd_hits := ux_user_centered_design.filter
    (fun element => strHas response_text (underscoresToSpaces element))
  let result := { result with strengths := (result.strengths ++
    ucd_hits.map (fun element => "Includes " ++ underscoresToSpaces element)) }
  if ucd_hits.isEmpty then
    { result with issues := result.issues ++
      [⟨.warning, .ux_design_thinking, "missing_user_centered_design",
        "No user-centered design elements mentioned",
        "Include user research, personas, journey mapping, or usability testing", "", none⟩] }
  else result

/-- REST rubric: `rest_principles`. -/
def rest_principles : List String :=
  ["client_server", "stateless", "cacheable", "uniform_interface",
   "layered_system", "code_on_demand"]

/-- REST rubric: the `http_methods` keys. -/
def rest_http_methods : List String := ["GET", "POST", "PUT", "PATCH", "DELETE"]

/-- REST rubric: `best_practices`. -/
def rest_best_practices : List String :=
  ["consistent_naming", "proper_status_codes", "versioning_strategy",
   "error_handling", "pagination", "filtering", "documentation"]

/-- The status-code probe list used by `_validate_rest_api_design`. -/
def rest_status_codes : List String := ["200", "201", "400", "401", "404", "500"]

/-- `_validate_rest_api_design`. -/
def validate_rest_api_design (agent_response : AgentResponse)
    (result : MethodologyValidationResult) : MethodologyValidationResult :=
  let response_text := (extract_full_response_text agent_response).lower
  let principle_hits := rest_principles.filter
    (fun principle => strHas response_text (underscoresToSpaces principle))
  let result := { result with strengths := (result.strengths ++
    principle_hits.map (fun p => "Addresses " ++ underscoresToSpaces p ++ " principle")) }
  let result :=
    if principle_hits.isEmpty then
      { result with issues := result.issues ++
        [⟨.warning, .rest_api_design, "missing_rest_principles",
          "No REST architectural principles mentioned",
          "Include REST principles (stateless, cacheable, uniform interface, etc.)", "", none⟩] }
    else result
  let methods_mentioned := (rest_http_methods.filter
    (fun method => strHas response_text method.lower)).length
  let result :=
    if methods_mentioned > 0 then
      { result with strengths := result.strengths ++
        ["Discusses " ++ toString methods_mentioned ++ " HTTP methods"] }
    else
      { result with improvement_areas := result.improvement_areas ++
        ["Include HTTP methods usage (GET, POST, PUT, DELETE)"] }
  let result :=
    if rest_status_codes.any (fun code => strHas response_text code) then
      { result with strengths := result.strengths ++ ["References HTTP status codes"] }
    else
      { result with improvement_areas := result.improvement_areas ++
        ["Include HTTP status code guidance"] }
  let practice_hits := rest_best_practices.filter
    (fun practice => strHas response_text (underscoresToSpaces practice))
  let result := { result with strengths := (result.strengths ++
    practice_hits.map (fun p => "Includes " ++ underscoresToSpaces p ++ " best practice")) }
  if practice_hits.length < 2 then
    { result with improvement_areas := result.improvement_areas ++
      ["Include more REST API best practices"] }
  else result

/-- Microservices rubric: `core_patterns`. -/
def ms_core_patterns : List String :=
  ["database_per_service", "api_gateway", "circuit_breaker",
   "service_discovery", "event_sourcing", "cqrs", "saga_pattern"]

/-- Microservices rubric: `decomposition_patterns`. -/
def ms_decomposition_patterns : List String :=
  ["decompose_by_business_capability", "decompose_by_subdomain",
   "self_contained_service", "service_per_team"]

/-- Microservices rubric: `data_management`. -/
def ms_data_management : List String :=
  ["database_per_service", "shared_databases_anti_pattern",
   "eventual_consistency", "distributed_transactions"]

/-- Microservices rubric: `observability`. -/
def ms_observability : List String :=
  ["distributed_tracing", "centralized_logging", "metrics_aggregation",
   "health_check_api", "service_monitoring"]

/-- `_validate_microservices_patterns`. -/
def validate_microservices_patterns (agent_response : AgentResponse)
    (result : MethodologyValidationResult) : MethodologyValidationResult :=
  let response_text := (extract_full_response_text agent_response).lower
  let pattern_hits := ms_core_patterns.filter
    (fun pattern => strHas response_text (underscoresToSpaces pattern))
  let result := { result with strengths := (result.strengths ++
    pattern_hits.map (fun p => "Mentions " ++ underscoresToSpaces p ++ " pattern")) }
  let result :=
    if pattern_hits.isEmpty then
      { result with issues := result.issues ++
        [⟨.warning, .microservices_patterns, "missing_core_patterns",
          "No microservices patterns mentioned",
          "Include core patterns like API gateway, circuit breaker, service discovery", "", none⟩] }
    else result
  let decomposition_mentioned := (ms_decomposition_patterns.filter
    (fun pattern => strHas response_text (underscoresToSpaces pattern))).length
  let result :=
    if decomposition_mentioned > 0 then
      { result with strengths := result.strengths ++ ["Addresses service decomposition strategy"] }
    else
      { result with improvement_areas := result.improvement_areas ++
        ["Include service decomposition strategy"] }
  let data_patterns := (ms_data_management.filter
    (fun pattern => strHas response_text (underscoresToSpaces pattern))).length
  let result :=
    if data_patterns > 0 then
      { result with strengths := result.strengths ++ ["Addresses microservices data management"] }
    else
      { result with improvement_areas := result.improvement_areas ++
        ["Include data management patterns (database per service, etc.)"] }
  let observability_mentioned := (ms_observability.filter
    (fun pattern => strHas response_text (underscoresToSpaces pattern))).length
  if observability_mentioned > 0 then
    { result with strengths := result.strengths ++
      ["Includes " ++ toString observability_mentioned ++ " observability patterns"] }
  else
    { result with improvement_areas := result.improvement_areas ++
      ["Include observability patterns (tracing, logging, monitoring)"] }

/-- `_validate_generic_methodology` (used for TDD, DDD, Agile). -/
def validate_generic_methodology (agent_response : AgentResponse)
    (result : MethodologyValidationResult) (methodology_type : MethodologyType) :
    MethodologyValidationResult :=
  let response_text := (extract_full_response_text agent_response).lower
  let result :=
    if response_text.length < 100 then
      { result with issues := result.issues ++
        [⟨.warning, methodology_type, "insufficient_detail",
          "Response lacks sufficient detail for methodology validation",
          "Provide more comprehensive methodology-based guidance", "", none⟩] }
    else result
  let methodology_name := underscoresToSpaces methodology_type.value
  let result :=
    if !(strHas response_text methodology_name) then
      { result with issues := result.issues ++
        [⟨.warning, methodology_type, "methodology_not_referenced",
          "Claimed methodology \x27" ++ methodology_name ++ "\x27 not explicitly referenced",
          "Reference " ++ methodology_name ++ " principles and practices", "", none⟩] }
    else result
  { result with improvement_areas := result.improvement_areas ++
    ["Provide more specific " ++ methodology_name ++ " guidance"] }

/-- The per-issue penalties of `_calculate_validation_score`. -/
def issue_penalty : ValidationSeverity → ℚ
  | .critical => (3/10)
  | .error => (2/10)
  | .warning => (1/10)
  | .info => (5/100)

/-- `_calculate_validation_score`: 1.0 minus issue penalties, plus a strength
bonus capped at 0.2, clamped to [0, 1]. -/
def calculate_validation_score (result : MethodologyValidationResult) : ℚ :=
  let base_score : ℚ := 1 - (result.issues.map (fun issue => issue_penalty issue.severity)).sum
  let strength_bonus : ℚ := min (2/10) ((result.strengths.length : ℚ) * (5/100))
  max 0 (min 1 (base_score + strength_bonus))

/-- `_determine_compliance_level`. -/
def determine_compliance_level (validation_score : ℚ) : String :=
  if validation_score ≥ (9/10) then "excellent"
  else if validation_score ≥ (75/100) then "good"
  else if validation_score ≥ (6/10) then "fair"
  else "poor"

/-- `_calculate_framework_adherence`. -/
def calculate_framework_adherence (result : MethodologyValidationResult) : ℚ :=
  let critical_issues := (result.issues.filter (fun i => i.severity = .critical)).length
  let error_issues := (result.issues.filter (fun i => i.severity = .error)).length
  if critical_issues > 0 then max (3/10) (result.validation_score - (4/10))
  else if error_issues > 1 then max (5/10) (result.validation_score - (2/10))
  else result.validation_score

/-- The `elif` dispatch of `validate_agent_methodology` over methodology
types; types without a specific validator fall to the generic one. -/
def dispatch_validator (methodology_type : MethodologyType) (agent_response : AgentResponse)
    (result : MethodologyValidationResult) : MethodologyValidationResult :=
  match methodology_type with
  | .clean_architecture => validate_clean_architecture agent_response result
  | .solid_principles => validate_solid_principles agent_response result
  | .owasp_security => validate_owasp_security agent_response result
  | .nist_cybersecurity => validate_nist_cybersecurity agent_response result
  | .ux_design_thinking => validate_ux_design_thinking agent_response result
  | .rest_api_design => validate_rest_api_design agent_response result
  | .microservices_patterns => validate_microservices_patterns agent_response result
  | .agile_development => validate_generic_methodology agent_response result .agile_development
  | .test_driven_development => validate_generic_methodology agent_response result .test_driven_development
  | .domain_driven_design => validate_generic_methodology agent_response result .domain_driven_design

/-- `validate_agent_methodology`, state-free part: map the claimed name,
run the rubric walk, then compute score, compliance and adherence. -/
def validate_agent_methodology (agent_response : AgentResponse)
    (claimed_methodology : String) (agent_name : String) : MethodologyValidationResult :=
  let result0 : MethodologyValidationResult :=
    { agent_name := agent_name, methodology_claimed := claimed_methodology,
      validation_score := 0, overall_compliance := "unknown",
      issues := [], strengths := [], improvement_areas := [],
      methodology_consistency := true, expert_framework_adherence := 0 }
  match map_methodology_string_to_type claimed_methodology with
  | none =>
    { result0 with
        issues := [⟨.warning, .clean_architecture, "unknown_methodology",
          "Cannot validate unknown methodology: " ++ claimed_methodology,
          "Specify a recognized development methodology", "", none⟩],
        validation_score := (5/10),
        overall_compliance := "fair" }
  | some methodology_type =>
    let r := dispatch_validator methodology_type agent_response result0
    let score := calculate_validation_score r
    let r := { r with validation_score := score,
                      overall_compliance := determine_compliance_level score }
    { r with expert_framework_adherence := calculate_framework_adherence r }

/-- The per-agent tracking record of `agent_methodology_tracking`.
`claimed_methodologies` is a Python set, modelled in insertion order. -/
structure AgentTracking where
  total_validations : Nat
  average_score : ℚ
  methodology_consistency : Bool
  common_issues : PyDict Nat
  strengths_count : PyDict Nat
  claimed_methodologies : List String
deriving DecidableEq

/-- `_update_agent_tracking`. -/
def update_agent_tracking (tracking_dict : PyDict AgentTracking) (agent_name : String)
    (result : MethodologyValidationResult) : PyDict AgentTracking :=
  let tracking := (dictGet tracking_dict agent_name).getD
    { total_validations := 0, average_score := 0, methodology_consistency := true,
      common_issues := [], strengths_count := [], claimed_methodologies := [] }
  let total := tracking.total_validations + 1
  let average_score := (tracking.average_score * ((total : ℚ) - 1) + result.validation_score) / (total : ℚ)
  let claimed_methodologies :=
    if tracking.claimed_methodologies.contains result.methodology_claimed then
      tracking.claimed_methodologies
    else tracking.claimed_methodologies ++ [result.methodology_claimed]
  let methodology_consistency :=
    if claimed_methodologies.length > 1 then false else tracking.methodology_consistency
  let common_issues := result.issues.foldl (fun d issue =>
    let issue_key := issue.issue_type ++ "_" ++ issue.severity.value
    dictInsert d issue_key ((dictGetD d issue_key 0) + 1)) tracking.common_issues
  let strengths_count := result.strengths.foldl (fun d strength =>
    dictInsert d strength ((dictGetD d strength 0) + 1)) tracking.strengths_count
  dictInsert tracking_dict agent_name
    { total_validations := total, average_score := average_score,
      methodology_consistency := methodology_consistency,
      common_issues := common_issues, strengths_count := strengths_count,
      claimed_methodologies := claimed_methodologies }

/-- The mutable state of `DevelopmentMethodologyValidator`. -/
structure ValidatorState where
  validation_history : List MethodologyValidationResult
  agent_methodology_tracking : PyDict AgentTracking
deriving DecidableEq

/-- The full stateful `validate_agent_methodology`: the unknown-methodology
branch returns early without touching tracking or history. -/
def validate_agent_methodology_state (state : ValidatorState) (agent_response : AgentResponse)
    (claimed_methodology : String) (agent_name : String) :
    MethodologyValidationResult × ValidatorState :=
  let result := validate_agent_methodology agent_response claimed_methodology agent_name
  match map_methodology_string_to_type claimed_methodology with
  | none => (result, state)
  | some _ =>
    (result,
     { validation_history := state.validation_history ++ [result],
       agent_methodology_tracking :=
         update_agent_tracking state.agent_methodology_tracking agent_name result })

/-- Models Python `l[-n:]`. -/
def takeLast {α : Type} (n : Nat) (l : List α) : List α :=
  l.drop (l.length - n)

/-- Stable insertion into a count-descending list (models Python's stable
`sorted(..., key=lambda x: x[1], reverse=True)`). -/
def insertByCountDesc (x : String × Nat) : PyDict Nat → PyDict Nat
  | [] => [x]
  | y :: rest => if x.2 ≥ y.2 then x :: y :: rest else y :: insertByCountDesc x rest

/-- Sort count pairs descending by count, stably. -/
def sortByCountDesc (l : PyDict Nat) : PyDict Nat :=
  l.foldr insertByCountDesc []

/-- Models `issue_key.split('_', 1)`. -/
def split_first_underscore (s : String) : String × String :=
  match pySplitOn s "_" with
  | [] => (s, "")
  | [x] => (x, "")
  | x :: rest => (x, pyJoin "_" rest)

/-- `_calculate_improvement_trend`. -/
def calculate_improvement_trend (recent_validations : List MethodologyValidationResult) : String :=
  if recent_validations.length < 3 then "insufficient_data"
  else
    let scores := recent_validations.map (·.validation_score)
    let first_half := scores.take (scores.length / 2)
    let second_half := scores.drop (scores.length / 2)
    let avg_first := first_half.sum / (first_half.length : ℚ)
    let avg_second := second_half.sum / (second_half.length : ℚ)
    if avg_second > avg_first + (1/10) then "improving"
    else if avg_second < avg_first - (1/10) then "declining"
    else "stable"

/-- `_generate_agent_recommendations`. -/
def generate_agent_recommendations (tracking : AgentTracking)
    (recent_validations : List MethodologyValidationResult) : List String :=
  let recommendations :=
    if tracking.average_score < (7/10) then
      ["Focus on improving methodology adherence - current average score is below good threshold"]
    else []
  let recommendations := recommendations ++
    (if !tracking.methodology_consistency then
      ["Maintain consistency in claimed methodology across consultations"]
    else [])
  let recommendations := recommendations ++
    ((tracking.common_issues.take 3).map (fun p =>
      let parts := split_first_underscore p.1
      "Address recurring " ++ parts.2 ++ " issue: " ++ underscoresToSpaces parts.1))
  recommendations ++
    (if !recent_validations.isEmpty then
      let recent_issues := (takeLast 3 recent_validations).flatMap
        (fun v => v.issues.map (·.issue_type))
      if recent_issues.length > 5 then
        ["Recent validations show increased issues - review methodology application"]
      else []
    else [])

/-- The `validation_summary` block of an agent methodology report. -/
structure ValidationSummary where
  total_validations : Nat
  average_validation_score : ℚ
  methodology_consistency : Bool
  claimed_methodologies : List String
deriving DecidableEq

/-- The `performance_trends` block of an agent methodology report. -/
structure PerformanceTrends where
  recent_scores : List ℚ
  recent_compliance : List String
  improvement_trend : String
deriving DecidableEq

/-- The dict returned by `get_agent_methodology_report`: either the
error-message dict or the full report. -/
inductive AgentMethodologyReport where
  | error (message : String)
  | report (agent_name : String) (validation_summary : ValidationSummary)
      (performance_trends : PerformanceTrends) (common_issues : PyDict Nat)
      (top_strengths : PyDict Nat) (recommendations : List String)
deriving DecidableEq

/-- `get_agent_methodology_report`, in explicit state-passing style: the
returned state is the validator state after the call.  The method only
reads `agent_methodology_tracking` and `validation_history`. -/
def get_agent_methodology_report (state : ValidatorState) (agent_name : String) :
    AgentMethodologyReport × ValidatorState :=
  match dictGet state.agent_methodology_tracking agent_name with
  | none => (.error ("No validation history found for agent: " ++ agent_name), state)
  | some tracking =>
    let recent_validations := (takeLast 10 state.validation_history).filter
      (fun r => r.agent_name == agent_name)
    (.report agent_name
      { total_validations := tracking.total_validations,
        average_validation_score := tracking.average_score,
        methodology_consistency := tracking.methodology_consistency,
        claimed_methodologies := tracking.claimed_methodologies }
      { recent_scores := (takeLast 5 recent_validations).map (·.validation_score),
        recent_compliance := (takeLast 5 recent_validations).map (·.overall_compliance),
        improvement_trend := calculate_improvement_trend recent_validations }
      ((sortByCountDesc tracking.common_issues).take 5)
      ((sortByCountDesc tracking.strengths_count).take 5)
      (generate_agent_recommendations tracking recent_validations),
     state)

/-! Helper lemmas about the Python-dict model. -/

theorem dictGet_cons {α : Type} (p : String × α) (rest : PyDict α) (k' : String) :
    dictGet (p :: rest) k' = if p.1 = k' then some p.2 else dictGet rest k' := by
  by_cases h : p.1 = k' <;> simp [dictGet, List.find?_cons, h]

theorem dictInsert_cons {α : Type} (p : String × α) (rest : PyDict α) (k : String) (v : α) :
    dictInsert (p :: rest) k v =
      if p.1 == k then (k, v) :: rest else p :: dictInsert rest k v := by
  cases p; rfl

theorem dictGet_insert {α : Type} (d : PyDict α) (k k' : String) (v : α) :
    dictGet (dictInsert d k v) k' = if k' = k then some v else dictGet d k' := by
  induction d with
  | nil =>
    by_cases h : k' = k
    · subst h; simp [dictInsert, dictGet_cons]
    · have h2 : k ≠ k' := fun hc => h hc.symm
      simp [dictInsert, dictGet_cons, dictGet, h, h2]
  | cons p rest ih =>
    rw [dictInsert_cons]
    cases hb : (p.1 == k) with
    | true =>
      have hpk : p.1 = k := by simpa using hb
      rw [if_pos rfl, dictGet_cons, dictGet_cons]
      by_cases h : k' = k
      · subst h; simp
      · have h2 : ¬ (k = k') := fun hc => h hc.symm
        have h3 : ¬ (p.1 = k') := fun hc => h (by rw [← hc, hpk])
        simp [h, h2, h3]
    | false =>
      have hpk : ¬ (p.1 = k) := by simpa using hb
      rw [if_neg (by simp [hb]), dictGet_cons, dictGet_cons, ih]
      by_cases hpk2 : p.1 = k'
      · have h1 : ¬ (k' = k) := fun hc => hpk (hc ▸ hpk2)
        simp [hpk2, h1]
      · simp [hpk2]

theorem dictGet_nil {α : Type} (k : String) : dictGet ([] : PyDict α) k = none := rfl

/-- `dictUpdate` with a three-entry literal is three `dictInsert`s. -/
theorem dictUpdate_three {α : Type} (d : PyDict α) (p1 p2 p3 : String × α) :
    dictUpdate d [p1, p2, p3] =
      dictInsert (dictInsert (dictInsert d p1.1 p1.2) p2.1 p2.2) p3.1 p3.2 := rfl

/-- Appending distinct suffixes to the same string yields distinct strings. -/
theorem append_ne_of_ne (a : String) {x y : String} (h : x ≠ y) : a ++ x ≠ a ++ y := by
  intro hc
  apply h
  have hd : (a ++ x).data = (a ++ y).data := by rw [hc]
  rw [String.data_append, String.data_append] at hd
  exact String.ext (List.append_cancel_left hd)

/-- `allPairs` commutes with `map`. -/
theorem allPairs_map {α β : Type} (g : α → β) (l : List α) :
    allPairs (l.map g) = (allPairs l).map (fun p => (g p.1, g p.2)) := by
  induction l with
  | nil => rfl
  | cons x rest ih => simp [allPairs, ih, List.map_map]

/-- The response dict whose technical-debt indicators are all positive:
`'refactor'` and `'best practices'` occur, no negative keyword does. -/
def debt_cx_response : AgentResponse :=
  { AgentResponse.empty with
      status := "success",
      result := [("architectural_recommendation", "refactor following best practices")] }

/-- C2: every quality-metric score lies in [0,1] and status is "pass" iff the
score reaches the metric's threshold.  The code violates the range half: for
an output whose result text mentions only the positive indicators `refactor`
and `best practices`, `_assess_technical_debt` computes `debt_risk = -0.2`
and `score = max(0.0, 1.0 - debt_risk) = 1.2 > 1`, because the score is
clamped only from below — contradicting the `score: float  # 0.0 to 1.0`
contract on the `QualityMetrics` dataclass. -/
theorem claim_C2_technical_debt_score_exceeds_one :
    (assess_technical_debt [debt_cx_response]).score = 6/5 ∧
    ¬ ((assess_technical_debt [debt_cx_response]).score ≤ 1) ∧
    (assess_technical_debt [debt_cx_response]).status = "pass" := by
  have hscan : ([debt_cx_response].foldl technical_debt_scan ((0 : ℚ), ([] : PyDict String))) =
      (0 - 1/10 - 1/10, [("refactoring_mentioned", "True"), ("best_practices_mentioned", "True")]) := by
    simp only [List.foldl, technical_debt_scan]
    rw [show strHas ((strOfPyDict debt_cx_response.result).lower) "quick fix" = false from by decide,
        show strHas ((strOfPyDict debt_cx_response.result).lower) "temporary" = false from by decide,
        show strHas ((strOfPyDict debt_cx_response.result).lower) "legacy" = false from by decide,
        show strHas ((strOfPyDict debt_cx_response.result).lower) "workaround" = false from by decide,
        show strHas ((strOfPyDict debt_cx_response.result).lower) "refactor" = true from by decide,
        show strHas ((strOfPyDict debt_cx_response.result).lower) "best practices" = true from by decide]
    simp [dictInsert]
  refine ⟨?_, ?_, ?_⟩ <;>
    simp only [assess_technical_debt, hscan] <;> norm_num

/-- C10: requesting a methodology report for an agent with no validation
history returns the error dict (never raises) and leaves the validator's
tracking state and history untouched. -/
theorem claim_C10_report_unknown_agent (state : ValidatorState) (agent_name : String)
    (h : dictGet state.agent_methodology_tracking agent_name = none) :
    (get_agent_methodology_report state agent_name).1 =
      .error ("No validation history found for agent: " ++ agent_name) ∧
    (get_agent_methodology_report state agent_name).2 = state := by
  constructor <;> simp [get_agent_methodology_report, h]

/-- Witness for C10 at the empty validator state and a fresh agent name. -/
theorem claim_C10_witness :
    dictGet (ValidatorState.mk [] []).agent_methodology_tracking "ghost-agent" = none ∧
    ((get_agent_methodology_report ⟨[], []⟩ "ghost-agent").1 =
        .error ("No validation history found for agent: " ++ "ghost-agent") ∧
      (get_agent_methodology_report ⟨[], []⟩ "ghost-agent").2 = ⟨[], []⟩) :=
  ⟨rfl, claim_C10_report_unknown_agent ⟨[], []⟩ "ghost-agent" rfl⟩

/-- Overlap detection reads no field but the content fields: replacing the
status of both responses changes nothing. -/
theorem overlap_for_pair_status_irrel (i j : Nat) (r1 r2 : AgentResponse) (s1 s2 : String) :
    overlap_for_pair (i, { r1 with status := s1 }) (j, { r2 with status := s2 }) =
      overlap_for_pair (i, r1) (j, r2) := rfl

/-- Conflict detection likewise never reads the status field. -/
theorem detect_response_conflict_status_irrel (n : Nat) (r1 r2 : AgentResponse)
    (s1 s2 : String) :
    detect_response_conflict n { r1 with status := s1 } { r2 with status := s2 } =
      detect_response_conflict n r1 r2 := rfl

/-- C6: the spec says pairwise overlap/conflict analysis runs only over
outputs with status "success".  In the code neither `_detect_agent_overlaps`
nor `_analyze_conflicts` filters by status: both iterate over every pair of
the input list, and the emitted records are exactly invariant under
arbitrary rewriting of every output's status field — so records can and do
involve failed outputs (see the counterexample). -/
theorem claim_C6_pairwise_analysis_ignores_status (agent_responses : List AgentResponse)
    (f : AgentResponse → String) (conflict_history_len : Nat) :
    detect_agent_overlaps (agent_responses.map (fun r => { r with status := f r })) =
      detect_agent_overlaps agent_responses ∧
    analyze_conflicts conflict_history_len
        (agent_responses.map (fun r => { r with status := f r })) =
      analyze_conflicts conflict_history_len agent_responses := by
  constructor
  · unfold detect_agent_overlaps
    rw [List.enum_map, allPairs_map, List.filterMap_map]
    congr 1
  · unfold analyze_conflicts
    rw [allPairs_map, List.filterMap_map]
    congr 1

/-- A failed output that still mentions the `security` topic in its result. -/
def c6_failed_response : AgentResponse :=
  { AgentResponse.empty with
      status := "failed",
      metadata := ⟨some "failed-analyst", none, some (5/10)⟩,
      result := [("analysis", "security issues found")] }

/-- A successful output mentioning the same topic. -/
def c6_ok_response : AgentResponse :=
  { AgentResponse.empty with
      status := "success",
      metadata := ⟨some "ok-analyst", none, some (5/10)⟩,
      result := [("security_analysis", "security controls")] }

/-- Counterexample to C6 as stated: an overlap record is emitted whose agents
include the failed output. -/
theorem claim_C6_counterexample :
    c6_failed_response.status = "failed" ∧
    (detect_agent_overlaps [c6_failed_response, c6_ok_response]).map (fun o => o.agents) =
      [["failed-analyst", "ok-analyst"]] := by
  constructor
  · rfl
  · decide

/-- Erase only the `conflict_id` field of a conflict record. -/
def erase_conflict_id (ca : ConflictAnalysis) : ConflictAnalysis :=
  { ca with conflict_id := "" }

/-- Up to `conflict_id`, `_detect_response_conflict` does not depend on the
engine's conflict-history length. -/
theorem detect_map_erase (n m : Nat) (r1 r2 : AgentResponse) :
    (detect_response_conflict n r1 r2).map erase_conflict_id =
      (detect_response_conflict m r1 r2).map erase_conflict_id := by
  unfold detect_response_conflict
  dsimp only
  split
  · split
    · simp [erase_conflict_id]
    · rfl
  · rfl

/-- C8: running the analyzer twice yields record sets identical in every
field except `conflict_id`: classification (type, severity, description,
resolutions, escalation) depends only on the outputs, but `conflict_id`
embeds `len(self.conflict_history)`, mutable engine state. -/
theorem claim_C8_classification_state_independent_up_to_id (n m : Nat)
    (agent_responses : List AgentResponse) :
    (analyze_conflicts n agent_responses).map erase_conflict_id =
      (analyze_conflicts m agent_responses).map erase_conflict_id := by
  unfold analyze_conflicts
  rw [List.map_filterMap, List.map_filterMap]
  congr 1
  funext p
  exact detect_map_erase n m p.1 p.2

/-- An output declaring a high-impact self-reported conflict. -/
def c8_r1 : AgentResponse :=
  { AgentResponse.empty with
      status := "success",
      metadata := ⟨some "arch", none, some (9/10)⟩,
      potential_conflicts := [("issue", "security architecture conflicts")] }

/-- A second output with no self-reported conflicts. -/
def c8_r2 : AgentResponse :=
  { AgentResponse.empty with
      status := "success",
      metadata := ⟨some "sec", none, some (85/100)⟩ }

/-- Counterexample to C8 as stated: the same output set analyzed at two
different conflict-history lengths yields different `ConflictRecord`s
(the `conflict_id` embeds the history length). -/
theorem claim_C8_counterexample :
    analyze_conflicts 0 [c8_r1, c8_r2] ≠ analyze_conflicts 1 [c8_r1, c8_r2] := by
  intro h
  have h2 := congrArg (List.map (fun ca => ca.conflict_id)) h
  rw [show (analyze_conflicts 0 [c8_r1, c8_r2]).map (fun ca => ca.conflict_id) =
        ["conflict_arch_sec_0"] from by decide,
      show (analyze_conflicts 1 [c8_r1, c8_r2]).map (fun ca => ca.conflict_id) =
        ["conflict_arch_sec_1"] from by decide] at h2
  exact absurd h2 (by decide)

/-- A minimal request with the given objective and empty maps. -/
def basic_request (objective : String) : DevelopmentRequest :=
  { objective := objective, context := [], constraints := [],
    output_format := "consultation", success_criteria := "",
    project_type := "feature", technical_requirements := [], quality_gates := [] }

/-- C3: in Parallel execution a failing consultation degrades only its own
entry.  The assembled list has exactly one entry per contributor in input
order (`results[k]` is contributor `agents[k]`'s own outcome); entries of
contributors other than the failing one are identical to what they are under
a consult function that does not fail that contributor; and any contributor
whose outcome is failed yields a failed entry. -/
theorem claim_C3_parallel_isolation (f g : Consult) (request : DevelopmentRequest)
    (agents : List String) (a : String)
    (hagree : ∀ b, b ≠ a → g b request = f b request) :
    (execute_parallel_analysis g request agents).length = agents.length ∧
    (∀ (k : Nat) (b : String), agents[k]? = some b →
      (execute_parallel_analysis g request agents)[k]? = some (response_of (g b request)) ∧
      (b ≠ a →
        (execute_parallel_analysis g request agents)[k]? =
          (execute_parallel_analysis f request agents)[k]?) ∧
      ((response_of (g b request)).status = "failed" →
        ((execute_parallel_analysis g request agents)[k]?).map AgentResponse.status =
          some "failed")) := by
  refine ⟨by simp [execute_parallel_analysis], ?_⟩
  intro k b hk
  have hg : (execute_parallel_analysis g request agents)[k]? =
      some (response_of (g b request)) := by
    simp [execute_parallel_analysis, List.getElem?_map, hk]
  refine ⟨hg, ?_, ?_⟩
  · intro hb
    have hf : (execute_parallel_analysis f request agents)[k]? =
        some (response_of (f b request)) := by
      simp [execute_parallel_analysis, List.getElem?_map, hk]
    rw [hg, hf, hagree b hb]
  · intro hst
    rw [hg]
    simp [hst]

/-- A consult function that succeeds for every agent. -/
def c3_f : Consult := fun name _ =>
  .ok { AgentResponse.empty with status := "success", metadata := ⟨some name, none, none⟩ }

/-- Like `c3_f`, but the agent named `broken` raises. -/
def c3_g : Consult := fun name request =>
  if name = "broken" then .error "boom" else c3_f name request

/-- Witness for C3: a three-agent batch in which only `broken` raises. -/
theorem claim_C3_witness :
    (∀ b, b ≠ "broken" → c3_g b (basic_request "x") = c3_f b (basic_request "x")) ∧
    ((execute_parallel_analysis c3_g (basic_request "x") ["alpha", "broken", "gamma"]).length =
        (["alpha", "broken", "gamma"] : List String).length ∧
      (∀ (k : Nat) (b : String), (["alpha", "broken", "gamma"] : List String)[k]? = some b →
        (execute_parallel_analysis c3_g (basic_request "x") ["alpha", "broken", "gamma"])[k]? =
          some (response_of (c3_g b (basic_request "x"))) ∧
        (b ≠ "broken" →
          (execute_parallel_analysis c3_g (basic_request "x") ["alpha", "broken", "gamma"])[k]? =
            (execute_parallel_analysis c3_f (basic_request "x") ["alpha", "broken", "gamma"])[k]?) ∧
        ((response_of (c3_g b (basic_request "x"))).status = "failed" →
          ((execute_parallel_analysis c3_g (basic_request "x") ["alpha", "broken", "gamma"])[k]?).map
              AgentResponse.status = some "failed"))) :=
  ⟨fun b hb => by simp [c3_g, hb],
   claim_C3_parallel_isolation c3_f c3_g (basic_request "x") ["alpha", "broken", "gamma"]
     "broken" (fun b hb => by simp [c3_g, hb])⟩

/-- C4 (amended): hierarchical delegation behaves as the source does — no
architect present: Sequential over the full set; architect consultation
fails: Parallel over the FULL agent list (the architect included, so its
entry reappears in the result); architect succeeds: its result and decisions
are injected as `architect_guidance` / `technical_direction`, the remaining
contributors run Parallel against the guided request, architect first. -/
theorem claim_C4_hierarchical_characterization (consult : Consult)
    (request : DevelopmentRequest) (agents : List String) :
    (agents.contains "senior-architect" = false →
      execute_hierarchical_delegation consult request agents =
        execute_sequential_workflow consult request agents) ∧
    (agents.contains "senior-architect" = true →
      ((response_of (consult "senior-architect" request)).status ≠ "success" →
        execute_hierarchical_delegation consult request agents =
          execute_parallel_analysis consult request agents ∧
        (execute_hierarchical_delegation consult request agents).length = agents.length ∧
        (∀ (k : Nat), agents[k]? = some "senior-architect" →
          (execute_hierarchical_delegation consult request agents)[k]? =
            some (response_of (consult "senior-architect" request)))) ∧
      ((response_of (consult "senior-architect" request)).status = "success" →
        execute_hierarchical_delegation consult request agents =
          response_of (consult "senior-architect" request) ::
            execute_parallel_analysis consult
              (guided_request request (response_of (consult "senior-architect" request)))
              (agents.filter (fun x => x ≠ "senior-architect")) ∧
        dictGet (guided_request request (response_of (consult "senior-architect" request))).context
            "architect_guidance" =
          some (CtxVal.resultMap (response_of (consult "senior-architect" request)).result) ∧
        dictGet (guided_request request (response_of (consult "senior-architect" request))).context
            "technical_direction" =
          some (CtxVal.decisions
            (response_of (consult "senior-architect" request)).technical_decisions))) := by
  refine ⟨fun h => ?_, fun h => ⟨?_, ?_⟩⟩
  · unfold execute_hierarchical_delegation
    rw [if_pos (show (!agents.contains "senior-architect") = true from by rw [h]; rfl)]
  · intro hfail
    have he : execute_hierarchical_delegation consult request agents =
        execute_parallel_analysis consult request agents := by
      unfold execute_hierarchical_delegation
      rw [if_neg (show ¬ ((!agents.contains "senior-architect") = true) from by rw [h]; decide)]
      dsimp only
      rw [if_pos hfail]
    refine ⟨he, by rw [he]; simp [execute_parallel_analysis], ?_⟩
    intro k hk
    rw [he]
    simp [execute_parallel_analysis, List.getElem?_map, hk]
  · intro hsucc
    have he : execute_hierarchical_delegation consult request agents =
        response_of (consult "senior-architect" request) ::
          execute_parallel_analysis consult
            (guided_request request (response_of (consult "senior-architect" request)))
            (agents.filter (fun x => x ≠ "senior-architect")) := by
      unfold execute_hierarchical_delegation
      rw [if_neg (show ¬ ((!agents.contains "senior-architect") = true) from by rw [h]; decide)]
      dsimp only
      rw [if_neg (show ¬ ((response_of (consult "senior-architect" request)).status ≠ "success")
        from fun hc => hc hsucc)]
    have hctx : (guided_request request
        (response_of (consult "senior-architect" request))).context =
        dictInsert (dictInsert request.context "architect_guidance"
            (CtxVal.resultMap (response_of (consult "senior-architect" request)).result))
          "technical_direction"
          (CtxVal.decisions
            (response_of (consult "senior-architect" request)).technical_decisions) := rfl
    refine ⟨he, ?_, ?_⟩
    · rw [hctx, dictGet_insert, dictGet_insert]
      simp
    · rw [hctx, dictGet_insert]
      simp

/-- A consult function whose architect consultation raises. -/
def c4_consult : Consult := fun name _ =>
  if name = "senior-architect" then .error "architect down"
  else .ok { AgentResponse.empty with status := "success", metadata := ⟨some name, none, none⟩ }

/-- Counterexample to C4 as stated: when the architect consultation fails,
the fallback Parallel runs over the full agent list — not over "the rest" —
so the result has one entry per agent including a failed architect entry. -/
theorem claim_C4_counterexample :
    execute_hierarchical_delegation c4_consult (basic_request "x")
        ["senior-architect", "security-consultant"] ≠
      execute_parallel_analysis c4_consult (basic_request "x") ["security-consultant"] ∧
    (execute_hierarchical_delegation c4_consult (basic_request "x")
        ["senior-architect", "security-consultant"]).length = 2 ∧
    ((execute_hierarchical_delegation c4_consult (basic_request "x")
        ["senior-architect", "security-consultant"])[0]?).map AgentResponse.status =
      some "failed" := by
  refine ⟨?_, by decide, by decide⟩
  intro h
  have h2 := congrArg List.length h
  rw [show (execute_hierarchical_delegation c4_consult (basic_request "x")
        ["senior-architect", "security-consultant"]).length = 2 from by decide,
      show (execute_parallel_analysis c4_consult (basic_request "x")
        ["security-consultant"]).length = 1 from by decide] at h2
  exact absurd h2 (by decide)

/-- Witness for C4 with an architect that succeeds and one that fails. -/
theorem claim_C4_witness :
    ((["ux-strategist"] : List String).contains "senior-architect" = false ∧
      execute_hierarchical_delegation c4_consult (basic_request "x") ["ux-strategist"] =
        execute_sequential_workflow c4_consult (basic_request "x") ["ux-strategist"]) ∧
    ((["senior-architect", "security-consultant"] : List String).contains "senior-architect" = true ∧
      (response_of (c4_consult "senior-architect" (basic_request "x"))).status ≠ "success" ∧
      execute_hierarchical_delegation c4_consult (basic_request "x")
          ["senior-architect", "security-consultant"] =
        execute_parallel_analysis c4_consult (basic_request "x")
          ["senior-architect", "security-consultant"]) :=
  ⟨⟨by decide,
    (claim_C4_hierarchical_characterization c4_consult (basic_request "x") ["ux-strategist"]).1
      (by decide)⟩,
   ⟨by decide, by decide,
    (((claim_C4_hierarchical_characterization c4_consult (basic_request "x")
        ["senior-architect", "security-consultant"]).2 (by decide)).1 (by decide)).1⟩⟩

/-- Map-style superset of context dicts: every binding of `sub` also holds
in `sup`. -/
def ctx_superset (sub sup : Ctx) : Prop :=
  ∀ key v, dictGet sub key = some v → dictGet sup key = some v

/-- Strict superset: superset plus a binding present only in `sup`. -/
def ctx_strict_superset (sub sup : Ctx) : Prop :=
  ctx_superset sub sup ∧ ∃ key, dictGet sub key = none ∧ (dictGet sup key).isSome

/-- The head entry of the sequential trace carries the starting context. -/
theorem sequential_trace_head (consult : Consult) (request : DevelopmentRequest) :
    ∀ (agents : List String) (ctx : Ctx) (q : Ctx × AgentResponse),
      (sequential_trace consult request ctx agents)[0]? = some q → q.1 = ctx := by
  intro agents ctx q h
  cases agents with
  | nil => simp [sequential_trace] at h
  | cons a rest =>
    simp only [sequential_trace, List.getElem?_cons_zero, Option.some_inj] at h
    rw [← h]

/-- Adjacent contexts of the sequential trace: the context consulted at step
`k+1` is the step-`k` context, updated only when step `k` succeeded. -/
theorem sequential_trace_adjacent (consult : Consult) (request : DevelopmentRequest) :
    ∀ (agents : List String) (ctx : Ctx) (k : Nat) (ak : String) (p q : Ctx × AgentResponse),
      agents[k]? = some ak →
      (sequential_trace consult request ctx agents)[k]? = some p →
      (sequential_trace consult request ctx agents)[k + 1]? = some q →
      q.1 = if p.2.status = "success" then update_accumulated p.1 ak p.2 else p.1 := by
  intro agents
  induction agents with
  | nil => intro ctx k ak p q hk; simp at hk
  | cons a rest ih =>
    intro ctx k ak p q hk hp hq
    cases k with
    | zero =>
      simp only [List.getElem?_cons_zero, Option.some_inj] at hk
      subst hk
      simp only [sequential_trace, List.getElem?_cons_zero, Option.some_inj] at hp
      simp only [sequential_trace, List.getElem?_cons_succ] at hq
      have hq1 := sequential_trace_head consult request rest _ q hq
      rw [hq1, ← hp]
    | succ n =>
      simp only [List.getElem?_cons_succ] at hk
      simp only [sequential_trace, List.getElem?_cons_succ] at hp hq
      exact ih _ n ak p q hk hp hq

/-- Updating with the three derived keys, all fresh, is a strict superset. -/
theorem update_accumulated_strict (ctx : Ctx) (a : String) (r : AgentResponse)
    (h1 : dictGet ctx (a ++ "_recommendations") = none)
    (h2 : dictGet ctx (a ++ "_decisions") = none)
    (h3 : dictGet ctx (a ++ "_constraints") = none) :
    ctx_strict_superset ctx (update_accumulated ctx a r) := by
  have e : update_accumulated ctx a r =
      dictInsert (dictInsert (dictInsert ctx (a ++ "_recommendations")
          (CtxVal.recs r.recommendations)) (a ++ "_decisions")
          (CtxVal.decisions r.technical_decisions)) (a ++ "_constraints")
        (CtxVal.recs r.scope_boundaries) := rfl
  constructor
  · intro key v hv
    have hk1 : key ≠ a ++ "_recommendations" := by
      intro hc; rw [hc, h1] at hv; cases hv
    have hk2 : key ≠ a ++ "_decisions" := by
      intro hc; rw [hc, h2] at hv; cases hv
    have hk3 : key ≠ a ++ "_constraints" := by
      intro hc; rw [hc, h3] at hv; cases hv
    rw [e, dictGet_insert, dictGet_insert, dictGet_insert]
    simp [hk1, hk2, hk3, hv]
  · refine ⟨a ++ "_recommendations", h1, ?_⟩
    rw [e, dictGet_insert, dictGet_insert, dictGet_insert]
    simp [append_ne_of_ne a (show "_recommendations" ≠ "_constraints" from by decide),
          append_ne_of_ne a (show "_recommendations" ≠ "_decisions" from by decide)]

/-- C5 (amended): for every adjacent pair in Sequential execution, the
context consulted at step `k+1` equals the step-`k` context when contributor
`k` failed, and equals it updated with the three keys derived from the
contributor's name when it succeeded — a strict superset whenever those
derived keys were absent before. -/
theorem claim_C5_sequential_context_growth (consult : Consult)
    (request : DevelopmentRequest) (agents : List String) (k : Nat) (ak : String)
    (ck ck1 : Ctx) (rk : AgentResponse)
    (hk : agents[k]? = some ak)
    (hck : (seq_contexts consult request agents)[k]? = some ck)
    (hck1 : (seq_contexts consult request agents)[k + 1]? = some ck1)
    (hrk : (execute_sequential_workflow consult request agents)[k]? = some rk) :
    (rk.status ≠ "success" → ck1 = ck) ∧
    (rk.status = "success" →
      ck1 = update_accumulated ck ak rk ∧
      (dictGet ck (ak ++ "_recommendations") = none ∧
       dictGet ck (ak ++ "_decisions") = none ∧
       dictGet ck (ak ++ "_constraints") = none →
        ctx_strict_superset ck ck1)) := by
  simp only [seq_contexts, execute_sequential_workflow, List.getElem?_map] at hck hck1 hrk
  obtain ⟨p, hp, hp1⟩ := Option.map_eq_some'.mp hck
  obtain ⟨q, hq, hq1⟩ := Option.map_eq_some'.mp hck1
  obtain ⟨p', hp', hp2⟩ := Option.map_eq_some'.mp hrk
  have hpp : p' = p := Option.some_inj.mp (hp'.symm.trans hp)
  subst hpp
  have hadj := sequential_trace_adjacent consult request agents request.context k ak p' q hk hp hq
  constructor
  · intro hfail
    rw [← hq1, hadj, if_neg (show ¬ p'.2.status = "success" from by rw [hp2]; exact hfail)]
    exact hp1
  · intro hsucc
    have he : ck1 = update_accumulated ck ak rk := by
      rw [← hq1, hadj,
          if_pos (show p'.2.status = "success" from by rw [hp2]; exact hsucc), hp1, hp2]
    refine ⟨he, fun ⟨h1, h2, h3⟩ => ?_⟩
    rw [he]
    exact update_accumulated_strict ck ak rk h1 h2 h3

/-- A consult function that always raises. -/
def c5_consult : Consult := fun _ _ => .error "boom"

/-- Counterexample to C5 as stated: when contributor `a` fails, contributor
`b` is consulted with the identical context — not a strict superset. -/
theorem claim_C5_counterexample :
    (seq_contexts c5_consult (basic_request "x") ["a", "b"])[0]? = some [] ∧
    (seq_contexts c5_consult (basic_request "x") ["a", "b"])[1]? = some [] ∧
    ¬ ctx_strict_superset ([] : Ctx) ([] : Ctx) := by
  refine ⟨by decide, by decide, ?_⟩
  rintro ⟨-, key, -, h2⟩
  simp [dictGet] at h2

/-- A consult function that always succeeds with a fixed payload. -/
def c5w_response : AgentResponse :=
  { AgentResponse.empty with
      status := "success",
      recommendations := [("follow_up_actions", "implement the guidance")] }

/-- Consult returning `c5w_response` for every agent. -/
def c5w_consult : Consult := fun _ _ => .ok c5w_response

/-- The context contributor `beta` is consulted with in the witness run. -/
def c5w_ctx1 : Ctx :=
  [("alpha_recommendations", CtxVal.recs c5w_response.recommendations),
   ("alpha_decisions", CtxVal.decisions []),
   ("alpha_constraints", CtxVal.recs [])]

/-- Witness for C5: a successful first step strictly grows the context. -/
theorem claim_C5_witness :
    (["alpha", "beta"] : List String)[0]? = some "alpha" ∧
    ((c5w_response.status ≠ "success" → c5w_ctx1 = []) ∧
     (c5w_response.status = "success" →
       c5w_ctx1 = update_accumulated [] "alpha" c5w_response ∧
       (dictGet ([] : Ctx) ("alpha" ++ "_recommendations") = none ∧
        dictGet ([] : Ctx) ("alpha" ++ "_decisions") = none ∧
        dictGet ([] : Ctx) ("alpha" ++ "_constraints") = none →
         ctx_strict_superset [] c5w_ctx1))) :=
  ⟨rfl,
   claim_C5_sequential_context_growth c5w_consult (basic_request "x") ["alpha", "beta"]
     0 "alpha" [] c5w_ctx1 c5w_response rfl (by decide) (by decide) (by decide)⟩

/-- Quality validation annotates the response but never touches `status` or
`failed_agents`. -/
theorem validate_keeps_status_and_count (response : SynthesizedResponse)
    (request : DevelopmentRequest) :
    (validate_development_quality response request).status = response.status ∧
    (validate_development_quality response request).failed_agents = response.failed_agents := by
  unfold validate_development_quality
  dsimp only
  split <;> exact ⟨rfl, rfl⟩

/-- With zero successful outputs the synthesis short-circuits to the failed
dict reporting the failed-consultation count. -/
theorem synthesize_failed_of_no_success (results : List AgentResponse)
    (request : DevelopmentRequest)
    (h : results.filter (fun r => r.status == "success") = []) :
    synthesize_development_results results request =
      { status := "failed",
        error := some "No agents provided successful consultations",
        failed_agents := some (results.filter (fun r => r.status == "failed")).length,
        synthesis_summary := none, technical_guidance := none, risk_assessment := none,
        next_steps := none, detailed_agent_responses := [], quality_validation := none,
        quality_warnings := none } := by
  unfold synthesize_development_results
  simp [h]

/-- With at least one successful output the synthesis reports success. -/
theorem synthesize_success_of_success (results : List AgentResponse)
    (request : DevelopmentRequest)
    (h : results.filter (fun r => r.status == "success") ≠ []) :
    (synthesize_development_results results request).status = "success" := by
  unfold synthesize_development_results
  dsimp only
  rw [if_neg (by simpa [List.isEmpty_iff] using h)]

/-- C1: for a request for which at least one contributor is selected, the
top-level `process_development_request` reports status "success" iff at
least one produced output has status "success", and with zero successes it
returns a failed response whose `failed_agents` is the count of outputs
with status "failed". -/
theorem claim_C1_coordinate_success_iff (consult : Consult) (active_agents : List String)
    (request : DevelopmentRequest)
    (hsel : selected_agents active_agents request ≠ []) :
    ((process_development_request consult active_agents request).status = "success" ↔
      ∃ r ∈ produced_outputs consult active_agents request, r.status = "success") ∧
    ((∀ r ∈ produced_outputs consult active_agents request, r.status ≠ "success") →
      (process_development_request consult active_agents request).status = "failed" ∧
      (process_development_request consult active_agents request).failed_agents =
        some ((produced_outputs consult active_agents request).filter
          (fun r => r.status == "failed")).length) := by
  have hps : (process_development_request consult active_agents request).status =
      (synthesize_development_results (produced_outputs consult active_agents request)
        request).status :=
    (validate_keeps_status_and_count _ _).1
  have hpf : (process_development_request consult active_agents request).failed_agents =
      (synthesize_development_results (produced_outputs consult active_agents request)
        request).failed_agents :=
    (validate_keeps_status_and_count _ _).2
  constructor
  · rw [hps]
    by_cases h : (produced_outputs consult active_agents request).filter
        (fun r => r.status == "success") = []
    · rw [synthesize_failed_of_no_success _ request h]
      constructor
      · intro hc; simp at hc
      · rintro ⟨r, hr, hst⟩
        have hmem : r ∈ (produced_outputs consult active_agents request).filter
            (fun r => r.status == "success") :=
          List.mem_filter.mpr ⟨hr, by simp [hst]⟩
        rw [h] at hmem
        cases hmem
    · rw [synthesize_success_of_success _ request h]
      simp only [true_iff]
      obtain ⟨r, hr⟩ := List.exists_mem_of_ne_nil _ h
      have hm := List.mem_filter.mp hr
      exact ⟨r, hm.1, by simpa using hm.2⟩
  · intro hall
    have h : (produced_outputs consult active_agents request).filter
        (fun r => r.status == "success") = [] := by
      rw [List.filter_eq_nil_iff]
      intro a ha
      simpa using hall a ha
    rw [hps, hpf, synthesize_failed_of_no_success _ request h]
    exact ⟨rfl, rfl⟩

/-- Consult succeeding for every loaded agent (as `_consult_agent` does). -/
def c1w_consult : Consult := fun name _ =>
  .ok { AgentResponse.empty with status := "success", metadata := ⟨some name, none, none⟩ }

/-- Witness for C1 on a one-contributor architecture request. -/
theorem claim_C1_witness :
    selected_agents ["senior-architect"] (basic_request "architecture work") ≠ [] ∧
    (((process_development_request c1w_consult ["senior-architect"]
        (basic_request "architecture work")).status = "success" ↔
      ∃ r ∈ produced_outputs c1w_consult ["senior-architect"]
          (basic_request "architecture work"), r.status = "success") ∧
     ((∀ r ∈ produced_outputs c1w_consult ["senior-architect"]
          (basic_request "architecture work"), r.status ≠ "success") →
       (process_development_request c1w_consult ["senior-architect"]
          (basic_request "architecture work")).status = "failed" ∧
       (process_development_request c1w_consult ["senior-architect"]
          (basic_request "architecture work")).failed_agents =
         some ((produced_outputs c1w_consult ["senior-architect"]
            (basic_request "architecture work")).filter
            (fun r => r.status == "failed")).length)) :=
  ⟨by decide,
   claim_C1_coordinate_success_iff c1w_consult ["senior-architect"]
     (basic_request "architecture work") (by decide)⟩

/-- Rank of the severity thresholds, as a function of the indicator total. -/
theorem rank_severity_of_indicators (n : Nat) :
    (severity_of_indicators n).rank =
      if n ≥ 4 then 3 else if n ≥ 2 then 2 else if n ≥ 1 then 1 else 0 := by
  unfold severity_of_indicators
  split_ifs <;> rfl

/-- The indicator total is monotone under pointwise implication of the three
keyword groups. -/
theorem severity_indicators_mono (t1 t2 : String)
    (h1 : hasAny t1 ["security", "architecture", "database"] = true →
      hasAny t2 ["security", "architecture", "database"] = true)
    (h2 : hasAny t1 ["cannot", "incompatible", "conflicts", "contradicts"] = true →
      hasAny t2 ["cannot", "incompatible", "conflicts", "contradicts"] = true)
    (h3 : hasAny t1 ["performance", "scalability", "bottleneck"] = true →
      hasAny t2 ["performance", "scalability", "bottleneck"] = true) :
    severity_indicators t1 ≤ severity_indicators t2 := by
  unfold severity_indicators
  have m1 : (if hasAny t1 ["security", "architecture", "database"] then 2 else 0) ≤
      (if hasAny t2 ["security", "architecture", "database"] then 2 else 0) := by
    cases hc : hasAny t1 ["security", "architecture", "database"] with
    | false => simp
    | true => rw [h1 hc]
  have m2 : (if hasAny t1 ["cannot", "incompatible", "conflicts", "contradicts"] then 2 else 0) ≤
      (if hasAny t2 ["cannot", "incompatible", "conflicts", "contradicts"] then 2 else 0) := by
    cases hc : hasAny t1 ["cannot", "incompatible", "conflicts", "contradicts"] with
    | false => simp
    | true => rw [h2 hc]
  have m3 : (if hasAny t1 ["performance", "scalability", "bottleneck"] then 1 else 0) ≤
      (if hasAny t2 ["performance", "scalability", "bottleneck"] then 1 else 0) := by
    cases hc : hasAny t1 ["performance", "scalability", "bottleneck"] with
    | false => simp
    | true => rw [h3 hc]
  omega

/-- C7: for every output pair where either side declares a non-empty
conflict map, a `ConflictRecord` is emitted iff the additive severity over
the merged conflict text is not low; the emitted record's severity equals
the additive formula (+2 security/architecture/database, +2 blocking
language, +1 performance/scalability/bottleneck; critical ≥ 4, high ≥ 2,
moderate ≥ 1); and the severity is monotonically non-decreasing in the
matched indicator groups. -/
theorem claim_C7_conflict_severity_additive (conflict_history_len : Nat)
    (r1 r2 : AgentResponse)
    (hne : r1.potential_conflicts ≠ [] ∨ r2.potential_conflicts ≠ []) :
    ((detect_response_conflict conflict_history_len r1 r2).isSome ↔
      severity_of_indicators (severity_indicators
        (conflict_text_of r1.potential_conflicts r2.potential_conflicts)) ≠ .low) ∧
    (∀ ca, detect_response_conflict conflict_history_len r1 r2 = some ca →
      ca.severity = severity_of_indicators
        ((if hasAny (conflict_text_of r1.potential_conflicts r2.potential_conflicts)
            ["security", "architecture", "database"] then 2 else 0) +
         (if hasAny (conflict_text_of r1.potential_conflicts r2.potential_conflicts)
            ["cannot", "incompatible", "conflicts", "contradicts"] then 2 else 0) +
         (if hasAny (conflict_text_of r1.potential_conflicts r2.potential_conflicts)
            ["performance", "scalability", "bottleneck"] then 1 else 0))) ∧
    (∀ t1 t2 : String,
      (hasAny t1 ["security", "architecture", "database"] = true →
        hasAny t2 ["security", "architecture", "database"] = true) →
      (hasAny t1 ["cannot", "incompatible", "conflicts", "contradicts"] = true →
        hasAny t2 ["cannot", "incompatible", "conflicts", "contradicts"] = true) →
      (hasAny t1 ["performance", "scalability", "bottleneck"] = true →
        hasAny t2 ["performance", "scalability", "bottleneck"] = true) →
      (severity_of_indicators (severity_indicators t1)).rank ≤
        (severity_of_indicators (severity_indicators t2)).rank) := by
  have hcond : (!r1.potential_conflicts.isEmpty || !r2.potential_conflicts.isEmpty) = true := by
    rcases hne with h | h <;> simp [List.isEmpty_iff, h]
  refine ⟨?_, ?_, ?_⟩
  · unfold detect_response_conflict
    dsimp only
    rw [if_pos hcond]
    by_cases hsev : (classify_conflict r1.potential_conflicts r2.potential_conflicts).2 ≠
        ConflictSeverity.low
    · rw [if_pos hsev]
      simpa [classify_conflict] using hsev
    · rw [if_neg hsev]
      simpa [classify_conflict] using hsev
  · intro ca hca
    unfold detect_response_conflict at hca
    dsimp only at hca
    rw [if_pos hcond] at hca
    by_cases hsev : (classify_conflict r1.potential_conflicts r2.potential_conflicts).2 ≠
        ConflictSeverity.low
    · rw [if_pos hsev] at hca
      have hrec := Option.some_inj.mp hca
      rw [← hrec]
      rfl
    · rw [if_neg hsev] at hca
      cases hca
  · intro t1 t2 h1 h2 h3
    rw [rank_severity_of_indicators, rank_severity_of_indicators]
    have := severity_indicators_mono t1 t2 h1 h2 h3
    split_ifs <;> omega

/-- An output declaring a performance conflict (one matched group). -/
def c7_r1 : AgentResponse :=
  { AgentResponse.empty with
      status := "success",
      metadata := ⟨some "arch", none, none⟩,
      potential_conflicts := [("tradeoff", "may impact performance")] }

/-- A second output with no declared conflicts. -/
def c7_r2 : AgentResponse :=
  { AgentResponse.empty with status := "success", metadata := ⟨some "sec", none, none⟩ }

/-- Witness for C7: a pair with a declared conflict; the record's presence
tracks the low/non-low severity boundary. -/
theorem claim_C7_witness :
    (c7_r1.potential_conflicts ≠ [] ∨ c7_r2.potential_conflicts ≠ []) ∧
    ((detect_response_conflict 0 c7_r1 c7_r2).isSome ↔
      severity_of_indicators (severity_indicators
        (conflict_text_of c7_r1.potential_conflicts c7_r2.potential_conflicts)) ≠ .low) :=
  ⟨Or.inl (by decide),
   (claim_C7_conflict_severity_additive 0 c7_r1 c7_r2 (Or.inl (by decide))).1⟩

/-- Every substring the validator of a methodology probes for: its rubric
keywords, anti-patterns (with the `avoid` shortcut), patterns, layers,
methods and codes.  An extracted text with zero rubric keywords is one in
which none of these occurs. -/
def rubric_scan_strings : MethodologyType → List String
  | .clean_architecture =>
      ca_core_principles.flatMap (fun p => pySplitOn p "_") ++
      ca_required_concepts.map underscoresToSpaces ++
      (ca_anti_patterns.map underscoresToSpaces ++ ["avoid"]) ++
      ca_layer_structure
  | .solid_principles =>
      solid_principles_data.flatMap (fun p => p.keywords) ++
      solid_principles_data.flatMap (fun p => p.anti_patterns) ++
      ["avoid"] ++
      solid_implementation_patterns.map underscoresToSpaces
  | .owasp_security =>
      owasp_top_10_2021.flatMap (fun v => v.keywords) ++
      owasp_top_10_2021.flatMap (fun v => v.mitigations.map underscoresToSpaces) ++
      owasp_security_principles.map underscoresToSpaces ++
      owasp_validation_categories
  | .nist_cybersecurity =>
      nist_framework_functions.flatMap (fun fn => fn.keywords) ++
      nist_framework_functions.flatMap (fun fn => fn.categories.map underscoresToSpaces)
  | .ux_design_thinking =>
      ux_design_thinking_process ++
      ux_don_norman_principles ++
      ux_usability_heuristics.flatMap (fun h => pySplit (underscoresToSpaces h)) ++
      ux_user_centered_design.map underscoresToSpaces
  | .rest_api_design =>
      rest_principles.map underscoresToSpaces ++
      rest_http_methods.map String.lower ++
      rest_status_codes ++
      rest_best_practices.map underscoresToSpaces
  | .microservices_patterns =>
      ms_core_patterns.map underscoresToSpaces ++
      ms_decomposition_patterns.map underscoresToSpaces ++
      ms_data_management.map underscoresToSpaces ++
      ms_observability.map underscoresToSpaces
  | mt => [underscoresToSpaces mt.value]

/-- A text contains zero rubric keywords of a methodology. -/
def no_rubric_matches (mt : MethodologyType) (t : String) : Bool :=
  (rubric_scan_strings mt).all (fun kw => !(strHas t kw))

/-! Generic facts about keyword scans over a text with no rubric matches. -/

theorem filter_strHas_nil {t : String} {l : List String}
    (h : ∀ kw ∈ l, strHas t kw = false) :
    l.filter (fun kw => strHas t kw) = [] :=
  List.filter_eq_nil_iff.mpr (fun a ha => by simp [h a ha])

theorem filter_strHas_map_nil {t : String} {l : List String} {f : String → String}
    (h : ∀ kw ∈ l.map f, strHas t kw = false) :
    l.filter (fun x => strHas t (f x)) = [] :=
  List.filter_eq_nil_iff.mpr (fun a ha => by
    simp [h (f a) (List.mem_map_of_mem f ha)])

theorem any_strHas_false {t : String} {l : List String}
    (h : ∀ kw ∈ l, strHas t kw = false) :
    (l.any (fun kw => strHas t kw)) = false := by
  rw [List.any_eq_false]
  intro kw hk
  simp [h kw hk]

theorem filter_any_split_nil {t : String} {l : List String}
    (h : ∀ kw ∈ l.flatMap (fun p => pySplitOn p "_"), strHas t kw = false) :
    l.filter (fun p => (pySplitOn p "_").any (fun kw => strHas t kw)) = [] :=
  List.filter_eq_nil_iff.mpr (fun p hp => by
    simp only [Bool.not_eq_true]
    exact any_strHas_false (fun kw hk => h kw (List.mem_flatMap.mpr ⟨p, hp, hk⟩)))

theorem foldl_const {α β : Type} (f : β → α → β) (l : List α)
    (h : ∀ acc x, x ∈ l → f acc x = acc) : ∀ acc, l.foldl f acc = acc := by
  induction l with
  | nil => intro acc; rfl
  | cons a rest ih =>
    intro acc
    rw [List.foldl_cons, h acc a (by simp)]
    exact ih (fun acc x hx => h acc x (by simp [hx])) acc

/-- Clean Architecture validation on a text with zero rubric keywords:
exactly the missing-principles error and missing-concepts warning. -/
theorem validate_ca_no_match (resp : AgentResponse) (r0 : MethodologyValidationResult)
    (hS : ∀ kw ∈ rubric_scan_strings .clean_architecture,
      strHas ((extract_full_response_text resp).lower) kw = false) :
    validate_clean_architecture resp r0 =
      { r0 with
          issues := r0.issues ++
            [⟨.error, .clean_architecture, "missing_core_principles",
              "No Clean Architecture core principles mentioned",
              "Include discussion of framework independence, testability, UI independence, etc.",
              "", none⟩,
             ⟨.warning, .clean_architecture, "missing_key_concepts",
              "Insufficient Clean Architecture concepts discussed",
              "Include separation of concerns, dependency inversion, business logic isolation",
              "", none⟩],
          improvement_areas := r0.improvement_areas ++
            ["Include warnings about Clean Architecture anti-patterns",
             "Explain Clean Architecture layer structure"] } := by
  unfold validate_clean_architecture
  dsimp only
  revert hS
  generalize (extract_full_response_text resp).lower = t
  intro hS
  have hS' : ∀ kw, (kw ∈ ca_core_principles.flatMap (fun p => pySplitOn p "_") ∨
      kw ∈ ca_required_concepts.map underscoresToSpaces ∨
      kw ∈ ca_anti_patterns.map underscoresToSpaces ++ ["avoid"] ∨
      kw ∈ ca_layer_structure) → strHas t kw = false := by
    intro kw hk
    apply hS
    simp only [List.mem_append] at hk
    simp only [rubric_scan_strings, List.mem_append]
    tauto
  have hp : ca_core_principles.filter
      (fun principle => (pySplitOn principle "_").any (fun keyword => strHas t keyword)) = [] :=
    filter_any_split_nil (fun kw hk => hS' kw (Or.inl hk))
  have hc : ca_required_concepts.filter
      (fun concept => strHas t (underscoresToSpaces concept)) = [] :=
    filter_strHas_map_nil (fun kw hk => hS' kw (Or.inr (Or.inl hk)))
  have havoid : strHas t "avoid" = false :=
    hS' "avoid" (Or.inr (Or.inr (Or.inl (List.mem_append_right _ (by simp)))))
  have hanti : ca_anti_patterns.filter
      (fun anti_pattern => strHas t (underscoresToSpaces anti_pattern) || strHas t "avoid") = [] :=
    List.filter_eq_nil_iff.mpr (fun ap hap => by
      simp [havoid, hS' (underscoresToSpaces ap)
        (Or.inr (Or.inr (Or.inl (List.mem_append_left _ (List.mem_map_of_mem _ hap)))))])
  have hlayer : (ca_layer_structure.any (fun layer => strHas t layer)) = false :=
    any_strHas_false (fun kw hk => hS' kw (Or.inr (Or.inr (Or.inr hk))))
  rw [hp, hc, hanti, hlayer]
  simp

/-- SOLID validation on a text with zero rubric keywords: exactly the
critical no-principles issue and the patterns improvement area. -/
theorem validate_solid_no_match (resp : AgentResponse) (r0 : MethodologyValidationResult)
    (hS : ∀ kw ∈ rubric_scan_strings .solid_principles,
      strHas ((extract_full_response_text resp).lower) kw = false) :
    validate_solid_principles resp r0 =
      { r0 with
          issues := r0.issues ++
            [⟨.critical, .solid_principles, "no_solid_principles",
              "No SOLID principles mentioned in response",
              "Agent claiming SOLID methodology must discuss relevant principles", "", none⟩],
          improvement_areas := r0.improvement_areas ++
            ["Include SOLID implementation patterns (DI, Factory, Strategy, etc.)"] } := by
  unfold validate_solid_principles
  dsimp only
  revert hS
  generalize (extract_full_response_text resp).lower = t
  intro hS
  have hS' : ∀ kw, (kw ∈ solid_principles_data.flatMap (fun p => p.keywords) ∨
      kw ∈ solid_principles_data.flatMap (fun p => p.anti_patterns) ∨
      kw = "avoid" ∨
      kw ∈ solid_implementation_patterns.map underscoresToSpaces) → strHas t kw = false := by
    intro kw hk
    apply hS
    simp only [rubric_scan_strings, List.mem_append, List.mem_singleton]
    tauto
  have hfold : solid_principles_data.foldl (solid_scan_step t) (0, []) = (0, []) := by
    apply foldl_const
    intro acc p hp
    have hk : (p.keywords.any (fun keyword => strHas t keyword)) = false :=
      any_strHas_false (fun kw hkw => hS' kw (Or.inl (List.mem_flatMap.mpr ⟨p, hp, hkw⟩)))
    have ha : p.anti_patterns.filterMap (fun anti_pattern =>
        if strHas t anti_pattern || strHas t "avoid" then
          some ("Warns against " ++ anti_pattern)
        else none) = [] := by
      rw [List.filterMap_eq_nil_iff]
      intro ap hap
      simp [hS' ap (Or.inr (Or.inl (List.mem_flatMap.mpr ⟨p, hp, hap⟩))),
            hS' "avoid" (Or.inr (Or.inr (Or.inl rfl)))]
    unfold solid_scan_step
    dsimp only
    rw [hk, ha]
    simp
  have hpat : solid_implementation_patterns.filter
      (fun pattern => strHas t (underscoresToSpaces pattern)) = [] :=
    filter_strHas_map_nil (fun kw hk => hS' kw (Or.inr (Or.inr (Or.inr hk))))
  rw [hfold, hpat]
  simp

/-- OWASP validation on a text with zero rubric keywords: exactly the
no-coverage error and the principles/categories improvement areas. -/
theorem validate_owasp_no_match (resp : AgentResponse) (r0 : MethodologyValidationResult)
    (hS : ∀ kw ∈ rubric_scan_strings .owasp_security,
      strHas ((extract_full_response_text resp).lower) kw = false) :
    validate_owasp_security resp r0 =
      { r0 with
          issues := r0.issues ++
            [⟨.error, .owasp_security, "no_owasp_coverage",
              "No OWASP Top 10 vulnerabilities addressed",
              "Security analysis should reference relevant OWASP Top 10 items", "", none⟩],
          improvement_areas := r0.improvement_areas ++
            ["Include fundamental security principles (defense in depth, least privilege, etc.)",
             "Cover more security validation categories (auth, input validation, crypto, etc.)"] } := by
  unfold validate_owasp_security
  dsimp only
  revert hS
  generalize (extract_full_response_text resp).lower = t
  intro hS
  have hS' : ∀ kw, (kw ∈ owasp_top_10_2021.flatMap (fun v => v.keywords) ∨
      kw ∈ owasp_top_10_2021.flatMap (fun v => v.mitigations.map underscoresToSpaces) ∨
      kw ∈ owasp_security_principles.map underscoresToSpaces ∨
      kw ∈ owasp_validation_categories) → strHas t kw = false := by
    intro kw hk
    apply hS
    simp only [rubric_scan_strings, List.mem_append]
    tauto
  have hfold : owasp_top_10_2021.foldl (owasp_scan_step t) (0, [], []) = (0, [], []) := by
    apply foldl_const
    intro acc v hv
    have hk : (v.keywords.any (fun keyword => strHas t keyword)) = false :=
      any_strHas_false (fun kw hkw => hS' kw (Or.inl (List.mem_flatMap.mpr ⟨v, hv, hkw⟩)))
    simp [owasp_scan_step, hk]
  have hprin : owasp_security_principles.filter
      (fun principle => strHas t (underscoresToSpaces principle)) = [] :=
    filter_strHas_map_nil (fun kw hk => hS' kw (Or.inr (Or.inr (Or.inl hk))))
  have hcat : owasp_validation_categories.filter (fun category => strHas t category) = [] :=
    filter_strHas_nil (fun kw hk => hS' kw (Or.inr (Or.inr (Or.inr hk))))
  rw [hfold, hprin, hcat]
  simp

/-- NIST validation on a text with zero rubric keywords: exactly the
no-functions warning, nothing else. -/
theorem validate_nist_no_match (resp : AgentResponse) (r0 : MethodologyValidationResult)
    (hS : ∀ kw ∈ rubric_scan_strings .nist_cybersecurity,
      strHas ((extract_full_response_text resp).lower) kw = false) :
    validate_nist_cybersecurity resp r0 =
      { r0 with
          issues := r0.issues ++
            [⟨.warning, .nist_cybersecurity, "no_nist_functions",
              "No NIST Cybersecurity Framework functions addressed",
              "Reference relevant NIST framework functions (Identify, Protect, Detect, Respond, Recover)",
              "", none⟩] } := by
  unfold validate_nist_cybersecurity
  dsimp only
  revert hS
  generalize (extract_full_response_text resp).lower = t
  intro hS
  have hS' : ∀ kw, (kw ∈ nist_framework_functions.flatMap (fun fn => fn.keywords) ∨
      kw ∈ nist_framework_functions.flatMap (fun fn => fn.categories.map underscoresToSpaces)) →
      strHas t kw = false := by
    intro kw hk
    apply hS
    simp only [rubric_scan_strings, List.mem_append]
    tauto
  have hfold : nist_framework_functions.foldl (nist_scan_step t) (0, []) = (0, []) := by
    apply foldl_const
    intro acc fn hfn
    have hk : (fn.keywords.any (fun keyword => strHas t keyword)) = false :=
      any_strHas_false (fun kw hkw => hS' kw (Or.inl (List.mem_flatMap.mpr ⟨fn, hfn, hkw⟩)))
    simp [nist_scan_step, hk]
  rw [hfold]
  simp

/-- UX validation on a text with zero rubric keywords: the missing
user-centered-design warning plus three improvement areas. -/
theorem validate_ux_no_match (resp : AgentResponse) (r0 : MethodologyValidationResult)
    (hS : ∀ kw ∈ rubric_scan_strings .ux_design_thinking,
      strHas ((extract_full_response_text resp).lower) kw = false) :
    validate_ux_design_thinking resp r0 =
      { r0 with
          issues := r0.issues ++
            [⟨.warning, .ux_design_thinking, "missing_user_centered_design",
              "No user-centered design elements mentioned",
              "Include user research, personas, journey mapping, or usability testing", "", none⟩],
          improvement_areas := r0.improvement_areas ++
            ["Include design thinking process steps (empathize, define, ideate, prototype, test)",
             "Reference Don Norman\x27s design principles",
             "Include usability heuristics and guidelines"] } := by
  unfold validate_ux_design_thinking
  dsimp only
  revert hS
  generalize (extract_full_response_text resp).lower = t
  intro hS
  have hS' : ∀ kw, (kw ∈ ux_design_thinking_process ∨
      kw ∈ ux_don_norman_principles ∨
      kw ∈ ux_usability_heuristics.flatMap (fun h => pySplit (underscoresToSpaces h)) ∨
      kw ∈ ux_user_centered_design.map underscoresToSpaces) → strHas t kw = false := by
    intro kw hk
    apply hS
    simp only [rubric_scan_strings, List.mem_append]
    tauto
  have hstep : ux_design_thinking_process.filter (fun step => strHas t step) = [] :=
    filter_strHas_nil (fun kw hk => hS' kw (Or.inl hk))
  have hnorman : ux_don_norman_principles.filter (fun principle => strHas t principle) = [] :=
    filter_strHas_nil (fun kw hk => hS' kw (Or.inr (Or.inl hk)))
  have hheur : ux_usability_heuristics.filter (fun heuristic =>
      (pySplit (underscoresToSpaces heuristic)).any (fun word => strHas t word)) = [] :=
    List.filter_eq_nil_iff.mpr (fun h hh => by
      simp only [Bool.not_eq_true]
      exact any_strHas_false (fun kw hk =>
        hS' kw (Or.inr (Or.inr (Or.inl (List.mem_flatMap.mpr ⟨h, hh, hk⟩))))))
  have hucd : ux_user_centered_design.filter
      (fun element => strHas t (underscoresToSpaces element)) = [] :=
    filter_strHas_map_nil (fun kw hk => hS' kw (Or.inr (Or.inr (Or.inr hk))))
  rw [hstep, hnorman, hheur, hucd]
  simp

/-- REST validation on a text with zero rubric keywords: the missing
principles warning plus three improvement areas. -/
theorem validate_rest_no_match (resp : AgentResponse) (r0 : MethodologyValidationResult)
    (hS : ∀ kw ∈ rubric_scan_strings .rest_api_design,
      strHas ((extract_full_response_text resp).lower) kw = false) :
    validate_rest_api_design resp r0 =
      { r0 with
          issues := r0.issues ++
            [⟨.warning, .rest_api_design, "missing_rest_principles",
              "No REST architectural principles mentioned",
              "Include REST principles (stateless, cacheable, uniform interface, etc.)", "", none⟩],
          improvement_areas := r0.improvement_areas ++
            ["Include HTTP methods usage (GET, POST, PUT, DELETE)",
             "Include HTTP status code guidance",
             "Include more REST API best practices"] } := by
  unfold validate_rest_api_design
  dsimp only
  revert hS
  generalize (extract_full_response_text resp).lower = t
  intro hS
  have hS' : ∀ kw, (kw ∈ rest_principles.map underscoresToSpaces ∨
      kw ∈ rest_http_methods.map String.lower ∨
      kw ∈ rest_status_codes ∨
      kw ∈ rest_best_practices.map underscoresToSpaces) → strHas t kw = false := by
    intro kw hk
    apply hS
    simp only [rubric_scan_strings, List.mem_append]
    tauto
  have hprin : rest_principles.filter
      (fun principle => strHas t (underscoresToSpaces principle)) = [] :=
    filter_strHas_map_nil (fun kw hk => hS' kw (Or.inl hk))
  have hmeth : rest_http_methods.filter (fun method => strHas t method.lower) = [] :=
    filter_strHas_map_nil (fun kw hk => hS' kw (Or.inr (Or.inl hk)))
  have hcode : (rest_status_codes.any (fun code => strHas t code)) = false :=
    any_strHas_false (fun kw hk => hS' kw (Or.inr (Or.inr (Or.inl hk))))
  have hprac : rest_best_practices.filter
      (fun practice => strHas t (underscoresToSpaces practice)) = [] :=
    filter_strHas_map_nil (fun kw hk => hS' kw (Or.inr (Or.inr (Or.inr hk))))
  rw [hprin, hmeth, hcode, hprac]
  simp

/-- Microservices validation on a text with zero rubric keywords: the missing
core-patterns warning plus three improvement areas. -/
theorem validate_ms_no_match (resp : AgentResponse) (r0 : MethodologyValidationResult)
    (hS : ∀ kw ∈ rubric_scan_strings .microservices_patterns,
      strHas ((extract_full_response_text resp).lower) kw = false) :
    validate_microservices_patterns resp r0 =
      { r0 with
          issues := r0.issues ++
            [⟨.warning, .microservices_patterns, "missing_core_patterns",
              "No microservices patterns mentioned",
              "Include core patterns like API gateway, circuit breaker, service discovery", "", none⟩],
          improvement_areas := r0.improvement_areas ++
            ["Include service decomposition strategy",
             "Include data management patterns (database per service, etc.)",
             "Include observability patterns (tracing, logging, monitoring)"] } := by
  unfold validate_microservices_patterns
  dsimp only
  revert hS
  generalize (extract_full_response_text resp).lower = t
  intro hS
  have hS' : ∀ kw, (kw ∈ ms_core_patterns.map underscoresToSpaces ∨
      kw ∈ ms_decomposition_patterns.map underscoresToSpaces ∨
      kw ∈ ms_data_management.map underscoresToSpaces ∨
      kw ∈ ms_observability.map underscoresToSpaces) → strHas t kw = false := by
    intro kw hk
    apply hS
    simp only [rubric_scan_strings, List.mem_append]
    tauto
  have hcore : ms_core_patterns.filter
      (fun pattern => strHas t (underscoresToSpaces pattern)) = [] :=
    filter_strHas_map_nil (fun kw hk => hS' kw (Or.inl hk))
  have hdec : ms_decomposition_patterns.filter
      (fun pattern => strHas t (underscoresToSpaces pattern)) = [] :=
    filter_strHas_map_nil (fun kw hk => hS' kw (Or.inr (Or.inl hk)))
  have hdata : ms_data_management.filter
      (fun pattern => strHas t (underscoresToSpaces pattern)) = [] :=
    filter_strHas_map_nil (fun kw hk => hS' kw (Or.inr (Or.inr (Or.inl hk))))
  have hobs : ms_observability.filter
      (fun pattern => strHas t (underscoresToSpaces pattern)) = [] :=
    filter_strHas_map_nil (fun kw hk => hS' kw (Or.inr (Or.inr (Or.inr hk))))
  rw [hcore, hdec, hdata, hobs]
  simp

/-- Generic validation when the methodology name itself is absent from the
text: the not-referenced warning (plus the short-response warning when the
text is shorter than 100 characters) and one improvement area. -/
theorem validate_generic_no_match (resp : AgentResponse) (r0 : MethodologyValidationResult)
    (mt : MethodologyType)
    (hS : strHas ((extract_full_response_text resp).lower) (underscoresToSpaces mt.value) = false) :
    validate_generic_methodology resp r0 mt =
      { r0 with
          issues := r0.issues ++
            (if ((extract_full_response_text resp).lower).length < 100 then
              [⟨.warning, mt, "insufficient_detail",
                "Response lacks sufficient detail for methodology validation",
                "Provide more comprehensive methodology-based guidance", "", none⟩]
             else []) ++
            [⟨.warning, mt, "methodology_not_referenced",
              "Claimed methodology \x27" ++ underscoresToSpaces mt.value ++
                "\x27 not explicitly referenced",
              "Reference " ++ underscoresToSpaces mt.value ++ " principles and practices",
              "", none⟩],
          improvement_areas := r0.improvement_areas ++
            ["Provide more specific " ++ underscoresToSpaces mt.value ++ " guidance"] } := by
  unfold validate_generic_methodology
  dsimp only
  rw [hS]
  by_cases hlen : ((extract_full_response_text resp).lower).length < 100
  · rw [if_pos hlen, if_pos hlen]
    simp
  · rw [if_neg hlen, if_neg hlen]
    simp

/-- C9 (amended): for every agent response whose extracted text contains zero
rubric keywords of its claimed methodology, when that methodology maps to a
known type, at least one ValidationIssue is raised and the validation score is
exactly 0.7 for Clean Architecture and SOLID, 0.8 for OWASP, 0.9 for NIST, UX,
REST and microservices, and for the generic methodologies (agile, TDD, DDD)
0.8 when the extracted text is shorter than 100 characters (two warnings) and
0.9 otherwise (one warning); hence the score is at most 0.9, but it is NOT in
general ≤ 0.5. -/
theorem claim_C9_zero_rubric_keywords (resp : AgentResponse)
    (claimed agent_name : String) (mt : MethodologyType)
    (hmap : map_methodology_string_to_type claimed = some mt)
    (hzero : no_rubric_matches mt ((extract_full_response_text resp).lower) = true) :
    1 ≤ (validate_agent_methodology resp claimed agent_name).issues.length ∧
    (validate_agent_methodology resp claimed agent_name).validation_score =
      (match mt with
       | .clean_architecture => (7/10 : ℚ)
       | .solid_principles => (7/10 : ℚ)
       | .owasp_security => (8/10 : ℚ)
       | .nist_cybersecurity => (9/10 : ℚ)
       | .ux_design_thinking => (9/10 : ℚ)
       | .rest_api_design => (9/10 : ℚ)
       | .microservices_patterns => (9/10 : ℚ)
       | .agile_development | .test_driven_development | .domain_driven_design =>
         if ((extract_full_response_text resp).lower).length < 100 then (8/10 : ℚ)
         else (9/10 : ℚ)) ∧
    (validate_agent_methodology resp claimed agent_name).validation_score ≤ (9/10) := by
  unfold no_rubric_matches at hzero
  have hS : ∀ kw ∈ rubric_scan_strings mt,
      strHas ((extract_full_response_text resp).lower) kw = false := by
    intro kw hk
    have h := List.all_eq_true.mp hzero kw hk
    simpa using h
  unfold validate_agent_methodology
  simp only [hmap]
  cases mt with
  | clean_architecture =>
    dsimp only [dispatch_validator]
    rw [validate_ca_no_match _ _ hS]
    dsimp only
    refine ⟨by simp, ?_, ?_⟩ <;>
      norm_num [calculate_validation_score, issue_penalty, min_def, max_def]
  | solid_principles =>
    dsimp only [dispatch_validator]
    rw [validate_solid_no_match _ _ hS]
    dsimp only
    refine ⟨by simp, ?_, ?_⟩ <;>
      norm_num [calculate_validation_score, issue_penalty, min_def, max_def]
  | owasp_security =>
    dsimp only [dispatch_validator]
    rw [validate_owasp_no_match _ _ hS]
    dsimp only
    refine ⟨by simp, ?_, ?_⟩ <;>
      norm_num [calculate_validation_score, issue_penalty, min_def, max_def]
  | nist_cybersecurity =>
    dsimp only [dispatch_validator]
    rw [validate_nist_no_match _ _ hS]
    dsimp only
    refine ⟨by simp, ?_, ?_⟩ <;>
      norm_num [calculate_validation_score, issue_penalty, min_def, max_def]
  | ux_design_thinking =>
    dsimp only [dispatch_validator]
    rw [validate_ux_no_match _ _ hS]
    dsimp only
    refine ⟨by simp, ?_, ?_⟩ <;>
      norm_num [calculate_validation_score, issue_penalty, min_def, max_def]
  | rest_api_design =>
    dsimp only [dispatch_validator]
    rw [validate_rest_no_match _ _ hS]
    dsimp only
    refine ⟨by simp, ?_, ?_⟩ <;>
      norm_num [calculate_validation_score, issue_penalty, min_def, max_def]
  | microservices_patterns =>
    dsimp only [dispatch_validator]
    rw [validate_ms_no_match _ _ hS]
    dsimp only
    refine ⟨by simp, ?_, ?_⟩ <;>
      norm_num [calculate_validation_score, issue_penalty, min_def, max_def]
  | agile_development =>
    dsimp only [dispatch_validator]
    rw [validate_generic_no_match _ _ _ (hS _ (by simp [rubric_scan_strings]))]
    dsimp only
    by_cases hlen : ((extract_full_response_text resp).lower).length < 100
    · rw [if_pos hlen, if_pos hlen]
      refine ⟨by simp, ?_, ?_⟩ <;>
        norm_num [calculate_validation_score, issue_penalty, min_def, max_def]
    · rw [if_neg hlen, if_neg hlen]
      refine ⟨by simp, ?_, ?_⟩ <;>
        norm_num [calculate_validation_score, issue_penalty, min_def, max_def]
  | test_driven_development =>
    dsimp only [dispatch_validator]
    rw [validate_generic_no_match _ _ _ (hS _ (by simp [rubric_scan_strings]))]
    dsimp only
    by_cases hlen : ((extract_full_response_text resp).lower).length < 100
    · rw [if_pos hlen, if_pos hlen]
      refine ⟨by simp, ?_, ?_⟩ <;>
        norm_num [calculate_validation_score, issue_penalty, min_def, max_def]
    · rw [if_neg hlen, if_neg hlen]
      refine ⟨by simp, ?_, ?_⟩ <;>
        norm_num [calculate_validation_score, issue_penalty, min_def, max_def]
  | domain_driven_design =>
    dsimp only [dispatch_validator]
    rw [validate_generic_no_match _ _ _ (hS _ (by simp [rubric_scan_strings]))]
    dsimp only
    by_cases hlen : ((extract_full_response_text resp).lower).length < 100
    · rw [if_pos hlen, if_pos hlen]
      refine ⟨by simp, ?_, ?_⟩ <;>
        norm_num [calculate_validation_score, issue_penalty, min_def, max_def]
    · rw [if_neg hlen, if_neg hlen]
      refine ⟨by simp, ?_, ?_⟩ <;>
        norm_num [calculate_validation_score, issue_penalty, min_def, max_def]

/-- C9 counterexample to the original claim: the empty response claims the
known methodology "REST API Design" and its extracted text contains zero REST
rubric keywords, yet the validation score is 9/10 (not ≤ 0.5) and the
compliance label is "excellent" (neither "poor" nor "fair"). -/
theorem claim_C9_counterexample :
    map_methodology_string_to_type "REST API Design" = some .rest_api_design ∧
    no_rubric_matches .rest_api_design
      ((extract_full_response_text AgentResponse.empty).lower) = true ∧
    (validate_agent_methodology AgentResponse.empty "REST API Design"
      "test-agent").validation_score = (9/10) ∧
    ¬ ((validate_agent_methodology AgentResponse.empty "REST API Design"
      "test-agent").validation_score ≤ (1/2)) ∧
    (validate_agent_methodology AgentResponse.empty "REST API Design"
      "test-agent").overall_compliance = "excellent" := by
  have hS : ∀ kw ∈ rubric_scan_strings .rest_api_design,
      strHas ((extract_full_response_text AgentResponse.empty).lower) kw = false := by decide
  have hval : ∀ agent_name : String,
      validate_agent_methodology AgentResponse.empty "REST API Design" agent_name =
      { agent_name := agent_name, methodology_claimed := "REST API Design",
        validation_score := (9/10), overall_compliance := "excellent",
        issues := [⟨.warning, .rest_api_design, "missing_rest_principles",
          "No REST architectural principles mentioned",
          "Include REST principles (stateless, cacheable, uniform interface, etc.)", "", none⟩],
        strengths := [],
        improvement_areas := ["Include HTTP methods usage (GET, POST, PUT, DELETE)",
          "Include HTTP status code guidance",
          "Include more REST API best practices"],
        methodology_consistency := true,
        expert_framework_adherence := (9/10) } := by
    intro agent_name
    unfold validate_agent_methodology
    rw [show map_methodology_string_to_type "REST API Design" = some .rest_api_design
      from by decide]
    dsimp only [dispatch_validator]
    rw [validate_rest_no_match _ _ hS]
    have hsc : calculate_validation_score
        { agent_name := agent_name, methodology_claimed := "REST API Design",
          validation_score := 0, overall_compliance := "unknown",
          issues := [⟨.warning, .rest_api_design, "missing_rest_principles",
            "No REST architectural principles mentioned",
            "Include REST principles (stateless, cacheable, uniform interface, etc.)", "", none⟩],
          strengths := [],
          improvement_areas := ["Include HTTP methods usage (GET, POST, PUT, DELETE)",
            "Include HTTP status code guidance",
            "Include more REST API best practices"],
          methodology_consistency := true,
          expert_framework_adherence := 0 } = (9/10) := by
      norm_num [calculate_validation_score, issue_penalty, min_def, max_def]
    dsimp only
    simp only [List.nil_append]
    rw [hsc]
    norm_num [determine_compliance_level, calculate_framework_adherence]
    simp
  refine ⟨by decide, by decide, ?_, ?_, ?_⟩
  · rw [hval]
  · rw [hval]
    norm_num
  · rw [hval]

theorem claim_C9_witness :
    map_methodology_string_to_type "NIST Cybersecurity" = some .nist_cybersecurity ∧
    no_rubric_matches .nist_cybersecurity
      ((extract_full_response_text AgentResponse.empty).lower) = true ∧
    (1 ≤ (validate_agent_methodology AgentResponse.empty "NIST Cybersecurity"
        "audit-agent").issues.length ∧
     (validate_agent_methodology AgentResponse.empty "NIST Cybersecurity"
        "audit-agent").validation_score = (9/10) ∧
     (validate_agent_methodology AgentResponse.empty "NIST Cybersecurity"
        "audit-agent").validation_score ≤ (9/10)) :=
  ⟨by decide, by decide,
   claim_C9_zero_rubric_keywords AgentResponse.empty "NIST Cybersecurity" "audit-agent"
     .nist_cybersecurity (by decide) (by decide)⟩
